import Mathlib

/-!
# avr-clock: a verification development for `clock.c`

A shallow embedding of the firmware's main loop (`main` in `clock.c`) and of the
gesture detector `getButtonEvent`.  Every `unsigned char` variable is a `Nat`
and each C increment, addition or subtraction on it is taken modulo `256`.
The local variables of `main` that survive from one loop iteration to the next
are the fields of `State`.
-/

namespace AvrClock

/-! ## Constants of `clock.c` -/

abbrev SEGMENT_DP : Nat := 0x01
abbrev BLANK : Nat := 0xFF

abbrev DEBOUNCE_TIME : Nat := 5
abbrev LONG_PRESS_TIME : Nat := 70
abbrev AUTO_REPEAT_INTERVAL : Nat := 25

abbrev E_BUTTON1_SHORT : Nat := 1
abbrev E_BUTTON1_LONG : Nat := 2
abbrev E_BUTTON1_REPEAT : Nat := 4
abbrev E_BUTTON2_SHORT : Nat := 0x10
abbrev E_BUTTON2_LONG : Nat := 0x20
abbrev E_BUTTON2_REPEAT : Nat := 0x40

abbrev M_TIME : Nat := 0x00
abbrev M_TIME_SET_HOURS : Nat := 0x0c
abbrev M_TIME_SET_TENS : Nat := 0x02
abbrev M_TIME_SET_MINUTES : Nat := 0x01
abbrev M_SECONDS : Nat := 0x10
abbrev M_SECONDS_SET : Nat := 0x13
abbrev M_BRIGHTNESS : Nat := 0x20
abbrev M_BRIGHTNESS_SET : Nat := 0x21
abbrev M_ALARM_BEEP : Nat := 0x70
abbrev M_ALARM : Nat := 0x80
abbrev M_ALARM_SET : Nat := 0x83
abbrev M_ALARM_TIME : Nat := 0x90
abbrev M_ALARM_SET_HOURS : Nat := 0x9c
abbrev M_ALARM_SET_TENS : Nat := 0x92
abbrev M_ALARM_SET_MINUTES : Nat := 0x91

abbrev BRIGHTSTEP_COUNT : Nat := 9

/-- The table `decode[]`: segment patterns of the digits 0..9 (a cleared bit is a lit segment). -/
def decode : List Nat := [0x03, 0xdb, 0x45, 0x51, 0x99, 0x31, 0x21, 0x5b, 0x01, 0x11]

/-- The table `brightsteps[]`. -/
def brightsteps : List Nat := [1, 2, 3, 5, 7, 12, 19, 31, 50]

/-- The read `decode[i]`; an index past the table (never produced by an in-range state) reads 0. -/
def decodeAt (i : Nat) : Nat := decode.getD i 0

/-- The read `brightsteps[i]`; an index past the table reads 0. -/
def brightstepsAt (i : Nat) : Nat := brightsteps.getD i 0

/-! ## The gesture detector -/

/-- The function `getButtonEvent(counter, mask)`.  The argument `up` is the truth value of
`PIND & mask` (the pulled-up line reads high when the button is released).  The result is the
returned event and the new value of `*counter`. -/
def getButtonEvent (counter : Nat) (up : Bool) : Nat × Nat :=
  if up then
    -- button is up
    let event := if DEBOUNCE_TIME ≤ counter ∧ counter < LONG_PRESS_TIME then E_BUTTON1_SHORT else 0
    (event, 0)
  else
    -- button is down
    let counter := (counter + 1) % 256
    if counter = LONG_PRESS_TIME then
      (E_BUTTON1_LONG, counter)
    else if counter = LONG_PRESS_TIME + AUTO_REPEAT_INTERVAL then
      (E_BUTTON1_REPEAT, (counter + 256 - AUTO_REPEAT_INTERVAL) % 256)
    else
      (0, counter)

/-- The counter after `n` consecutive samples that read "pressed", starting from `counter`. -/
def held : Nat → Nat → Nat
  | 0, counter => counter
  | n + 1, counter => (getButtonEvent (held n counter) false).2

/-! ## The state of the main loop -/

/-- The variables of `main` that live across loop iterations, the shared `brightness` and
`display[0..3]`, and the buzzer bit of `DDRD`. -/
structure State where
  hundredths : Nat
  seconds : Nat
  minutes : Nat
  hours : Nat
  display_1 : Nat
  brightstep : Nat
  brightness : Nat
  mode : Nat
  button1_pressed : Nat
  button2_pressed : Nat
  alarm_enabled : Nat
  alarm_hours : Nat
  alarm_minutes : Nat
  display0 : Nat
  display1 : Nat
  display2 : Nat
  display3 : Nat
  buzzer : Bool
  deriving DecidableEq, Repr

/-- The state at power-on, from the initialisers of `main` and of the globals. -/
def powerOn : State :=
  { hundredths := 0, seconds := 0, minutes := 0, hours := 12, display_1 := 0,
    brightstep := 6, brightness := 19, mode := M_TIME,
    button1_pressed := 0, button2_pressed := 0,
    alarm_enabled := 1, alarm_hours := 12, alarm_minutes := 1,
    display0 := 0, display1 := 0, display2 := 0, display3 := 0, buzzer := false }

/-- The clock fields are within their ranges. -/
def TimeInRange (s : State) : Prop :=
  s.hours < 24 ∧ s.minutes < 60 ∧ s.seconds < 60 ∧ s.hundredths < 100

/-- The alarm fields are within their ranges. -/
def AlarmInRange (s : State) : Prop :=
  s.alarm_hours < 24 ∧ s.alarm_minutes < 60

/-- The clock and the alarm fields are within their ranges. -/
def InRange (s : State) : Prop := TimeInRange s ∧ AlarmInRange s

instance (s : State) : Decidable (TimeInRange s) := by unfold TimeInRange; infer_instance
instance (s : State) : Decidable (AlarmInRange s) := by unfold AlarmInRange; infer_instance
instance (s : State) : Decidable (InRange s) := by unfold InRange; infer_instance

/-- The number of hundredths of a second since midnight. -/
def sinceMidnight (s : State) : Nat :=
  ((s.hours * 60 + s.minutes) * 60 + s.seconds) * 100 + s.hundredths

/-! ## The body of the main loop -/

/-- The block "timekeeping" of the main loop, alarm check included. -/
def timekeeping (s : State) : State :=
  let s : State := { s with hundredths := (s.hundredths + 1) % 256 }
  if s.hundredths = 100 then
    let s : State := { s with hundredths := 0 }
    let s : State := { s with seconds := (s.seconds + 1) % 256 }
    if s.seconds = 60 then
      let s : State := { s with seconds := 0 }
      let s : State := { s with minutes := (s.minutes + 1) % 256 }
      let s : State :=
        if s.minutes = 60 then
          let s : State := { s with minutes := 0 }
          let s : State := { s with hours := (s.hours + 1) % 256 }
          if s.hours = 24 then { s with hours := 0 } else s
        else s
      if s.alarm_enabled ≠ 0 ∧ s.hours = s.alarm_hours ∧ s.minutes = s.alarm_minutes then
        -- start the alarm
        { s with mode := M_ALARM_BEEP }
      else if s.mode = M_ALARM_BEEP then
        -- switch off alarm after one minute
        { s with mode := M_TIME }
      else s
    else s
  else s

/-- The block "generate button events": both counters are updated and the two events are
combined into one byte.  The arguments `up1` and `up2` are the levels of the two button lines. -/
def generateEvents (up1 up2 : Bool) (s : State) : Nat × State :=
  let r1 := getButtonEvent s.button1_pressed up1
  let r2 := getButtonEvent s.button2_pressed up2
  ((r1.1 ||| (r2.1 <<< 4)) % 256, { s with button1_pressed := r1.2, button2_pressed := r2.2 })

/-- The body of `case M_TIME:` of the event switch. -/
def caseTime (event : Nat) (s : State) : State :=
  let mode := s.mode
  let mode := if event &&& E_BUTTON1_SHORT ≠ 0 then M_ALARM_SET else mode
  let mode := if event &&& E_BUTTON1_LONG ≠ 0 then M_TIME_SET_HOURS else mode
  let mode := if event &&& E_BUTTON2_SHORT ≠ 0 then M_SECONDS else mode
  { s with mode := mode }

/-- The body of `case M_TIME_SET_HOURS:` of the event switch. -/
def caseTimeSetHours (event : Nat) (s : State) : State :=
  let mode := s.mode
  let mode := if event &&& E_BUTTON1_LONG ≠ 0 then M_TIME else mode
  let mode := if event &&& E_BUTTON1_SHORT ≠ 0 then M_TIME_SET_TENS else mode
  let hours :=
    if event &&& (E_BUTTON2_SHORT ||| E_BUTTON2_REPEAT) ≠ 0 then
      let hours := (s.hours + 1) % 256
      if hours = 24 then 0 else hours
    else s.hours
  { s with mode := mode, hours := hours }

/-- The body of `case M_TIME_SET_TENS:` of the event switch. -/
def caseTimeSetTens (event : Nat) (s : State) : State :=
  let mode := s.mode
  let mode := if event &&& E_BUTTON1_LONG ≠ 0 then M_TIME else mode
  let mode := if event &&& E_BUTTON1_SHORT ≠ 0 then M_TIME_SET_MINUTES else mode
  let minutes :=
    if event &&& (E_BUTTON2_SHORT ||| E_BUTTON2_REPEAT) ≠ 0 then
      let minutes := (s.minutes + 10) % 256
      if minutes > 59 then (minutes + 256 - 60) % 256 else minutes
    else s.minutes
  { s with mode := mode, minutes := minutes }

/-- The body of `case M_TIME_SET_MINUTES:` of the event switch. -/
def caseTimeSetMinutes (event : Nat) (s : State) : State :=
  let mode := s.mode
  let mode := if event &&& E_BUTTON1_SHORT ≠ 0 then M_TIME else mode
  let minutes :=
    if event &&& (E_BUTTON2_SHORT ||| E_BUTTON2_REPEAT) ≠ 0 then
      let minutes := (s.minutes + 1) % 256
      if minutes % 10 = 0 then (minutes + 256 - 10) % 256 else minutes
    else s.minutes
  { s with mode := mode, minutes := minutes }

/-- The body of `case M_SECONDS:` of the event switch. -/
def caseSeconds (event : Nat) (s : State) : State :=
  let mode := s.mode
  let mode := if event &&& E_BUTTON1_SHORT ≠ 0 then M_BRIGHTNESS_SET else mode
  let mode := if event &&& E_BUTTON2_SHORT ≠ 0 then M_TIME else mode
  let mode := if event &&& E_BUTTON1_LONG ≠ 0 then M_SECONDS_SET else mode
  { s with mode := mode }

/-- The body of `case M_SECONDS_SET:` of the event switch. -/
def caseSecondsSet (event : Nat) (s : State) : State :=
  let mode := s.mode
  let mode := if event &&& E_BUTTON1_SHORT ≠ 0 then M_TIME else mode
  if event &&& E_BUTTON2_SHORT ≠ 0 then
    let t : State :=
      if s.seconds > 30 then
        let t : State := { s with minutes := (s.minutes + 1) % 256 }
        if t.minutes = 60 then
          let t : State := { t with minutes := 0 }
          let t : State := { t with hours := (t.hours + 1) % 256 }
          if t.hours = 24 then { t with hours := 0 } else t
        else t
      else s
    { t with seconds := 0, hundredths := 25, mode := M_TIME }
  else { s with mode := mode }

/-- The body of `case M_ALARM_SET:` of the event switch. -/
def caseAlarmSet (event : Nat) (s : State) : State :=
  let mode := s.mode
  let mode :=
    if event &&& E_BUTTON1_SHORT ≠ 0 then
      (if s.alarm_enabled ≠ 0 then M_ALARM_SET_HOURS else M_TIME)
    else mode
  let mode := if event &&& E_BUTTON1_LONG ≠ 0 then M_ALARM_SET_HOURS else mode
  let alarm_enabled :=
    if event &&& (E_BUTTON2_SHORT ||| E_BUTTON2_REPEAT) ≠ 0 then
      (if s.alarm_enabled ≠ 0 then 0 else 1)
    else s.alarm_enabled
  { s with mode := mode, alarm_enabled := alarm_enabled }

/-- The body of `case M_ALARM_SET_HOURS:` of the event switch. -/
def caseAlarmSetHours (event : Nat) (s : State) : State :=
  let mode := s.mode
  let mode := if event &&& E_BUTTON1_LONG ≠ 0 then M_TIME else mode
  let mode := if event &&& E_BUTTON1_SHORT ≠ 0 then M_ALARM_SET_TENS else mode
  let alarm_hours :=
    if event &&& (E_BUTTON2_SHORT ||| E_BUTTON2_REPEAT) ≠ 0 then
      let alarm_hours := (s.alarm_hours + 1) % 256
      if alarm_hours = 24 then 0 else alarm_hours
    else s.alarm_hours
  { s with mode := mode, alarm_hours := alarm_hours }

/-- The body of `case M_ALARM_SET_TENS:` of the event switch. -/
def caseAlarmSetTens (event : Nat) (s : State) : State :=
  let mode := s.mode
  let mode := if event &&& E_BUTTON1_LONG ≠ 0 then M_TIME else mode
  let mode := if event &&& E_BUTTON1_SHORT ≠ 0 then M_ALARM_SET_MINUTES else mode
  let alarm_minutes :=
    if event &&& (E_BUTTON2_SHORT ||| E_BUTTON2_REPEAT) ≠ 0 then
      let alarm_minutes := (s.alarm_minutes + 10) % 256
      if alarm_minutes > 59 then (alarm_minutes + 256 - 60) % 256 else alarm_minutes
    else s.alarm_minutes
  { s with mode := mode, alarm_minutes := alarm_minutes }

/-- The body of `case M_ALARM_SET_MINUTES:` of the event switch. -/
def caseAlarmSetMinutes (event : Nat) (s : State) : State :=
  let mode := s.mode
  let mode := if event &&& E_BUTTON1_SHORT ≠ 0 then M_TIME else mode
  let alarm_minutes :=
    if event &&& (E_BUTTON2_SHORT ||| E_BUTTON2_REPEAT) ≠ 0 then
      let alarm_minutes := (s.alarm_minutes + 1) % 256
      if alarm_minutes % 10 = 0 then (alarm_minutes + 256 - 10) % 256 else alarm_minutes
    else s.alarm_minutes
  { s with mode := mode, alarm_minutes := alarm_minutes }

/-- The body of `case M_BRIGHTNESS_SET:` of the event switch. -/
def caseBrightnessSet (event : Nat) (s : State) : State :=
  let mode := s.mode
  let mode := if event &&& E_BUTTON1_SHORT ≠ 0 then M_TIME else mode
  if event &&& (E_BUTTON2_SHORT ||| E_BUTTON2_REPEAT) ≠ 0 then
    let brightstep := (s.brightstep + 1) % 256
    let brightstep := if brightstep ≥ BRIGHTSTEP_COUNT then 0 else brightstep
    { s with mode := mode, brightstep := brightstep, brightness := brightstepsAt brightstep }
  else { s with mode := mode }

/-- The body of `case M_ALARM_BEEP:` of the event switch. -/
def caseAlarmBeep (event : Nat) (s : State) : State :=
  if event &&& (E_BUTTON1_SHORT ||| E_BUTTON2_SHORT) ≠ 0 then { s with mode := M_TIME } else s

/-- The block "process the events": `if (event) switch (mode) ...`; a mode without a case
leaves the state as it is. -/
def processEvents (event : Nat) (s : State) : State :=
  if event = 0 then s
  else if s.mode = M_TIME then caseTime event s
  else if s.mode = M_TIME_SET_HOURS then caseTimeSetHours event s
  else if s.mode = M_TIME_SET_TENS then caseTimeSetTens event s
  else if s.mode = M_TIME_SET_MINUTES then caseTimeSetMinutes event s
  else if s.mode = M_SECONDS then caseSeconds event s
  else if s.mode = M_SECONDS_SET then caseSecondsSet event s
  else if s.mode = M_ALARM_SET then caseAlarmSet event s
  else if s.mode = M_ALARM_SET_HOURS then caseAlarmSetHours event s
  else if s.mode = M_ALARM_SET_TENS then caseAlarmSetTens event s
  else if s.mode = M_ALARM_SET_MINUTES then caseAlarmSetMinutes event s
  else if s.mode = M_BRIGHTNESS_SET then caseBrightnessSet event s
  else if s.mode = M_ALARM_BEEP then caseAlarmBeep event s
  else s

/-- The block "update the display according to the mode": `switch (mode & 0xF0)`. -/
def updateDisplay (s : State) : State :=
  let facet := s.mode &&& 0xF0
  if facet = M_ALARM_BEEP ∨ facet = M_TIME then
    let ten_hour := s.hours / 10
    { s with
      display0 := if ten_hour ≠ 0 then decodeAt ten_hour else BLANK
      display_1 := decodeAt (s.hours % 10)
      display2 := decodeAt (s.minutes / 10)
      display3 := decodeAt (s.minutes % 10) }
  else if facet = M_SECONDS then
    { s with
      display0 := BLANK
      display_1 := BLANK
      display2 := decodeAt (s.seconds / 10)
      display3 := decodeAt (s.seconds % 10) }
  else if facet = M_ALARM then
    { s with
      display0 := 0x09
      display_1 := 0xA7
      display2 := if s.alarm_enabled ≠ 0 then 0xe1 else 0xfd
      display3 := if s.alarm_enabled ≠ 0 then 0xe9 else 0xfd }
  else if facet = M_ALARM_TIME then
    let ten_hour := s.alarm_hours / 10
    { s with
      display0 := if ten_hour ≠ 0 then decodeAt ten_hour else BLANK
      display_1 := decodeAt (s.alarm_hours % 10)
      display2 := decodeAt (s.alarm_minutes / 10)
      display3 := decodeAt (s.alarm_minutes % 10) }
  else if facet = M_BRIGHTNESS then
    { s with
      display0 := BLANK
      display_1 := BLANK
      display2 := 0xa1
      display3 := decodeAt (s.brightstep + 1) }
  else s

/-- The block "flash & beep with 3 Hz". -/
def flashBeep (s : State) : State :=
  if (s.hundredths ≥ 17 ∧ s.hundredths < 34) ∨ (s.hundredths ≥ 50 ∧ s.hundredths < 67) ∨
      s.hundredths ≥ 83 then
    -- flash the selected digits
    let flash : Bool := decide (s.button2_pressed < LONG_PRESS_TIME)
    let display0 := if flash ∧ s.mode &&& 0x08 ≠ 0 then BLANK else s.display0
    let display_1 := if flash ∧ s.mode &&& 0x04 ≠ 0 then BLANK else s.display_1
    let display2 := if flash ∧ s.mode &&& 0x02 ≠ 0 then BLANK else s.display2
    let display3 := if flash ∧ s.mode &&& 0x01 ≠ 0 then BLANK else s.display3
    -- short beep
    let buzzer := if s.mode = M_ALARM_BEEP then true else s.buzzer
    { s with display0 := display0, display_1 := display_1, display2 := display2,
             display3 := display3, buzzer := buzzer }
  else
    -- silence
    { s with buzzer := false }

/-- The final block of the loop: the colon bit of `display[1]`. -/
def colon (s : State) : State :=
  if s.hundredths < 50 ∨ s.mode &&& M_ALARM ≠ 0 then
    { s with display1 := s.display_1 &&& (255 - SEGMENT_DP) }
  else
    { s with display1 := s.display_1 ||| SEGMENT_DP }

/-- The event byte computed in the cycle that starts in `s` with button levels `up1`, `up2`. -/
def cycleEvent (up1 up2 : Bool) (s : State) : Nat :=
  (generateEvents up1 up2 (timekeeping s)).1

/-- One iteration of `while(1)`, after the wait for the 10 ms tick. -/
def loopBody (up1 up2 : Bool) (s : State) : State :=
  let s : State := timekeeping s
  let r := generateEvents up1 up2 s
  let s : State := processEvents r.1 r.2
  let s : State := updateDisplay s
  let s : State := flashBeep s
  colon s

/-- The main loop run over a sequence of button-level samples, one pair per cycle. -/
def runLoop : List (Bool × Bool) → State → State
  | [], s => s
  | p :: ps, s => runLoop ps (loopBody p.1 p.2 s)

/-- No cycle of the run produces a button event. -/
def Quiet : List (Bool × Bool) → State → Prop
  | [], _ => True
  | p :: ps, s => cycleEvent p.1 p.2 s = 0 ∧ Quiet ps (loopBody p.1 p.2 s)

/-- Two states agree on the clock, the alarm setting and the mode (they may differ in the
button counters, the brightness and the outputs). -/
def SameLogic (a b : State) : Prop :=
  a.hours = b.hours ∧ a.minutes = b.minutes ∧ a.seconds = b.seconds ∧
    a.hundredths = b.hundredths ∧ a.mode = b.mode ∧ a.alarm_enabled = b.alarm_enabled ∧
    a.alarm_hours = b.alarm_hours ∧ a.alarm_minutes = b.alarm_minutes

/-- A sample state: 23:59:59.99 in mode Clock with the alarm disabled. -/
def lastTick : State :=
  { powerOn with hours := 23, minutes := 59, seconds := 59, hundredths := 99, alarm_enabled := 0 }

/-- A sample state: 07:29:59.99 in mode Clock with the alarm enabled at 07:30. -/
def beforeAlarm : State :=
  { powerOn with hours := 7, minutes := 29, seconds := 59, hundredths := 99,
                 alarm_enabled := 1, alarm_hours := 7, alarm_minutes := 30 }

/-- A sample state: the alarm of 07:30 has just started (07:30:00.00, mode Alarm-Ringing). -/
def alarmStarted : State :=
  { powerOn with hours := 7, minutes := 30, seconds := 0, hundredths := 0, mode := M_ALARM_BEEP,
                 alarm_enabled := 1, alarm_hours := 7, alarm_minutes := 30 }

/-- A sample state: mode Clock at power-on, button 2 held for 94 cycles so far. -/
def holdingButton2 : State := { powerOn with button2_pressed := 94 }

/-- A sample state: 23:39 with the alarm at 23:59. -/
def editSample : State :=
  { powerOn with hours := 23, minutes := 39, alarm_hours := 23, alarm_minutes := 59 }

/-- The state at power-on, switched to mode Brightness-Set. -/
def brightnessEdit : State := { powerOn with mode := M_BRIGHTNESS_SET }

/-- The brightness equals the table entry of the step index, which is inside the table. -/
def BrightnessOk (s : State) : Prop :=
  s.brightstep < BRIGHTSTEP_COUNT ∧ s.brightness = brightstepsAt s.brightstep

instance (s : State) : Decidable (BrightnessOk s) := by unfold BrightnessOk; infer_instance

/-- A sample state: 07:29:59.99 in mode Seconds-Set, alarm enabled at 07:30, button 2 pressed
for 10 cycles so far (its release is a short press). -/
def secondsSetAtAlarm : State :=
  { powerOn with hours := 7, minutes := 29, seconds := 59, hundredths := 99,
                 mode := M_SECONDS_SET, button2_pressed := 10,
                 alarm_enabled := 1, alarm_hours := 7, alarm_minutes := 30 }

/-- A sample state: 23:59:45.10 in mode Seconds-Set, button 2 pressed for 10 cycles so far. -/
def secondsSetSample : State :=
  { powerOn with hours := 23, minutes := 59, seconds := 45, hundredths := 10,
                 mode := M_SECONDS_SET, button2_pressed := 10 }

/-- The tick that starts in `s` crosses a minute boundary onto the enabled alarm time. -/
def AlarmStarts (s : State) : Prop :=
  s.hundredths = 99 ∧ s.seconds = 59 ∧ s.alarm_enabled ≠ 0 ∧
    (timekeeping s).hours = s.alarm_hours ∧ (timekeeping s).minutes = s.alarm_minutes

instance (s : State) : Decidable (AlarmStarts s) := by unfold AlarmStarts; infer_instance

/-- The state at the point where the display update begins: after timekeeping, event
generation and event processing of the cycle. -/
def preDisplay (up1 up2 : Bool) (s : State) : State :=
  processEvents (cycleEvent up1 up2 s) (generateEvents up1 up2 (timekeeping s)).2

/-- The three flash windows of a second, as the specification states them. -/
def InFlashWindow (hundredths : Nat) : Prop :=
  (17 ≤ hundredths ∧ hundredths < 34) ∨ (50 ≤ hundredths ∧ hundredths < 67) ∨
    (83 ≤ hundredths ∧ hundredths < 100)

instance (n : Nat) : Decidable (InFlashWindow n) := by unfold InFlashWindow; infer_instance

/-- A sample state: 12:00:00.19 in mode Set-Hours at power-on values. -/
def blinkSample : State := { powerOn with hundredths := 19, mode := M_TIME_SET_HOURS }

/-- A sample state: the alarm of 07:30 rings, 07:30:00.59. -/
def ringingLate : State := { alarmStarted with hundredths := 59 }

/-- A sample state: the alarm of 07:30 rings, 07:30:00.19, buzzer silent, button 1 pressed for
9 cycles so far. -/
def ringingPressed : State := { alarmStarted with hundredths := 19, button1_pressed := 9 }

/-! ## The display driver: `ISR(TIMER0_COMPA_vect)` -/

/-- Bit numbers of port D, as `avr/io.h` defines them. -/
abbrev PD0 : Nat := 0
abbrev PD1 : Nat := 1
abbrev PD2 : Nat := 2
abbrev PD6 : Nat := 6

abbrev DIGIT0 : Nat := 1 <<< PD0
abbrev DIGIT1 : Nat := 1 <<< PD1
abbrev DIGIT2 : Nat := 1 <<< PD2
abbrev DIGIT3 : Nat := 1 <<< PD6

abbrev MAIN_LOOP_TICKS : Nat := 100
abbrev DIGIT_DURATION : Nat := 50
abbrev DIGIT_COUNT : Nat := 4

/-- The table `digits[]` of digit-select masks. -/
def digits : List Nat := [DIGIT0, DIGIT1, DIGIT2, DIGIT3]

/-- The read `digits[i]`; an index past the table reads 0. -/
def digitsAt (i : Nat) : Nat := digits.getD i 0

/-- The variables and registers the timer interrupt works on. -/
structure Isr where
  DDRD : Nat
  DDRB : Nat
  digit_time : Nat
  current_digit : Nat
  ticks : Nat
  deriving DecidableEq, Repr

/-- The driver state at power-on: both data-direction registers and all globals are 0. -/
def isrPowerOn : Isr := { DDRD := 0, DDRB := 0, digit_time := 0, current_digit := 0, ticks := 0 }

/-- One run of `ISR(TIMER0_COMPA_vect)`; `brightness` and `display` are the values of the
shared `brightness` and `display[]` at this tick. -/
def isr (brightness : Nat) (display : Nat → Nat) (t : Isr) : Isr :=
  let t : Isr := { t with digit_time := (t.digit_time + 1) % 256 }
  let t : Isr :=
    if t.digit_time ≥ brightness then
      -- switch current digit off
      { t with DDRD := t.DDRD &&& (255 - digitsAt t.current_digit) }
    else t
  let t : Isr :=
    if t.digit_time = DIGIT_DURATION then
      let t : Isr := { t with digit_time := 0 }
      let t : Isr := { t with current_digit := (t.current_digit + 1) % 256 }
      let t : Isr := if t.current_digit = DIGIT_COUNT then { t with current_digit := 0 } else t
      -- show next digit, switch next digit on
      let t : Isr := { t with DDRB := display t.current_digit }
      { t with DDRD := t.DDRD ||| digitsAt t.current_digit }
    else t
  let t : Isr := { t with ticks := (t.ticks + 1) % 256 }
  if t.ticks = MAIN_LOOP_TICKS then { t with ticks := 0 } else t

/-- The driver run over a sequence of ticks; each tick carries the `brightness` and the
`display[]` contents it reads. -/
def runIsr : List (Nat × (Nat → Nat)) → Isr → Isr
  | [], t => t
  | p :: ps, t => runIsr ps (isr p.1 p.2 t)

/-- Digit-select line `i` is on: its bit of `DDRD` is set. -/
def lineOn (t : Isr) (i : Nat) : Prop := t.DDRD &&& digitsAt i ≠ 0

instance (t : Isr) (i : Nat) : Decidable (lineOn t i) := by unfold lineOn; infer_instance

/-- At most the line of `current_digit` is on, and the two counters are in range. -/
def Exclusive (t : Isr) : Prop :=
  (∀ i, i < 4 → lineOn t i → i = t.current_digit) ∧ t.current_digit < 4 ∧ t.digit_time < 50

/-- Within a display slot of digit `d` at brightness `b`: `j` ticks after the slot began,
line `d` is on exactly while `j < b` and the other lines are off. -/
def InSlot (b d j : Nat) (t : Isr) : Prop :=
  t.digit_time = j ∧ t.current_digit = d ∧ ∀ i, i < 4 → (lineOn t i ↔ (i = d ∧ j < b))

instance (t : Isr) : Decidable (Exclusive t) := by unfold Exclusive; infer_instance

/-- A sample driver state: 49 ticks after power-on (no line on yet, `digit_time` 49). -/
def slotEnd : Isr := { DDRD := 0, DDRB := 0, digit_time := 49, current_digit := 0, ticks := 49 }

/-- A sample buffer: the glyphs of 1, 2, 3, 4. -/
def sampleDisplay (i : Nat) : Nat := decodeAt (i + 1)

/-! ## Rendering: the words of the specification -/

/-- Patterns of the letters, from the character-code comments next to `decode[]`. -/
abbrev GLYPH_A : Nat := 0x09
abbrev GLYPH_b : Nat := 0xa1
abbrev GLYPH_L : Nat := 0xa7
abbrev GLYPH_n : Nat := 0xe9
abbrev GLYPH_o : Nat := 0xe1
abbrev GLYPH_DASH : Nat := 0xfd

/-- The four rendered slots before the colon bit is applied: `display[0]`, `display_1`,
`display[2]`, `display[3]`. -/
def rendered (s : State) : List Nat := [s.display0, s.display_1, s.display2, s.display3]

/-- A time shown as HH:MM with the leading digit blanked when the hours are below 10, as the
specification words it. -/
def showHHMM (hours minutes : Nat) : List Nat :=
  [if hours < 10 then BLANK else decodeAt (hours / 10), decodeAt (hours % 10),
   decodeAt (minutes / 10), decodeAt (minutes % 10)]

/-- A sample state: 09:05:37 with the alarm at 21:40 and disabled, brightness step 6. -/
def renderSample : State :=
  { powerOn with hours := 9, minutes := 5, seconds := 37, alarm_enabled := 0,
                 alarm_hours := 21, alarm_minutes := 40 }

/-! ## The glyph table and the modes: the words of the specification -/

/-- The segment masks, from the mapping comment above `decode[]` (a cleared bit is a lit
segment). -/
abbrev SEG_A : Nat := 0x80
abbrev SEG_B : Nat := 0x20
abbrev SEG_C : Nat := 0x04
abbrev SEG_D : Nat := 0x08
abbrev SEG_E : Nat := 0x10
abbrev SEG_F : Nat := 0x40
abbrev SEG_G : Nat := 0x02

/-- The seven segment masks. -/
def allSegments : List Nat := [SEG_A, SEG_B, SEG_C, SEG_D, SEG_E, SEG_F, SEG_G]

/-- The standard seven-segment shape of each decimal digit, as the specification lists it. -/
def shapeOf : Nat → List Nat
  | 0 => [SEG_A, SEG_B, SEG_C, SEG_D, SEG_E, SEG_F]
  | 1 => [SEG_B, SEG_C]
  | 2 => [SEG_A, SEG_B, SEG_D, SEG_E, SEG_G]
  | 3 => [SEG_A, SEG_B, SEG_C, SEG_D, SEG_G]
  | 4 => [SEG_B, SEG_C, SEG_F, SEG_G]
  | 5 => [SEG_A, SEG_C, SEG_D, SEG_F, SEG_G]
  | 6 => [SEG_A, SEG_C, SEG_D, SEG_E, SEG_F, SEG_G]
  | 7 => [SEG_A, SEG_B, SEG_C]
  | 8 => [SEG_A, SEG_B, SEG_C, SEG_D, SEG_E, SEG_F, SEG_G]
  | 9 => [SEG_A, SEG_B, SEG_C, SEG_D, SEG_F, SEG_G]
  | _ => []

/-- The 12 modes of the transition table. -/
def tableModes : List Nat :=
  [M_TIME, M_TIME_SET_HOURS, M_TIME_SET_TENS, M_TIME_SET_MINUTES, M_SECONDS, M_SECONDS_SET,
   M_BRIGHTNESS_SET, M_ALARM_BEEP, M_ALARM_SET, M_ALARM_SET_HOURS, M_ALARM_SET_TENS,
   M_ALARM_SET_MINUTES]

/-- A sample input: button 2 pressed for six cycles and then released. -/
def pressButton2 : List (Bool × Bool) :=
  [(true, false), (true, false), (true, false), (true, false), (true, false), (true, false),
   (true, true)]

/-! ## Timekeeping: range and carry chain -/

theorem timekeeping_fields (s : State) :
    (timekeeping s).alarm_enabled = s.alarm_enabled ∧
    (timekeeping s).alarm_hours = s.alarm_hours ∧
    (timekeeping s).alarm_minutes = s.alarm_minutes ∧
    (timekeeping s).button1_pressed = s.button1_pressed ∧
    (timekeeping s).button2_pressed = s.button2_pressed ∧
    (timekeeping s).brightstep = s.brightstep ∧
    (timekeeping s).brightness = s.brightness := by
  simp only [timekeeping]
  split_ifs <;> simp

theorem timekeeping_range (s : State) (h : TimeInRange s) : TimeInRange (timekeeping s) := by
  simp only [TimeInRange] at h
  simp only [timekeeping, TimeInRange]
  split_ifs <;> simp_all <;> omega

theorem timekeeping_sinceMidnight (s : State) (h : TimeInRange s) :
    sinceMidnight (timekeeping s) = (sinceMidnight s + 1) % 8640000 := by
  simp only [TimeInRange] at h
  simp only [timekeeping, sinceMidnight]
  split_ifs <;> simp_all <;> omega

theorem sinceMidnight_lt (s : State) (h : TimeInRange s) : sinceMidnight s < 8640000 := by
  simp only [TimeInRange] at h
  simp only [sinceMidnight]
  omega

theorem sinceMidnight_inj (a b : State) (ha : TimeInRange a) (hb : TimeInRange b)
    (h : sinceMidnight a = sinceMidnight b) :
    a.hours = b.hours ∧ a.minutes = b.minutes ∧ a.seconds = b.seconds ∧
      a.hundredths = b.hundredths := by
  simp only [TimeInRange] at ha hb
  simp only [sinceMidnight] at h
  omega

theorem iterate_timekeeping (n : Nat) (s : State) (h : TimeInRange s) :
    TimeInRange (Nat.iterate timekeeping n s) ∧
      sinceMidnight (Nat.iterate timekeeping n s) = (sinceMidnight s + n) % 8640000 := by
  induction n generalizing s with
  | zero =>
    refine ⟨h, ?_⟩
    have := sinceMidnight_lt s h
    simp only [Function.iterate_zero, id_eq, Nat.add_zero]
    omega
  | succ k ih =>
    have hr := timekeeping_range s h
    have hs := timekeeping_sinceMidnight s h
    obtain ⟨h1, h2⟩ := ih (timekeeping s) hr
    rw [Function.iterate_succ_apply]
    refine ⟨h1, ?_⟩
    rw [h2, hs]
    omega

/-! ## The display blocks leave the clock, the alarm and the mode alone -/

theorem display_blocks_fields (s : State) :
    (colon (flashBeep (updateDisplay s))).hours = s.hours ∧
    (colon (flashBeep (updateDisplay s))).minutes = s.minutes ∧
    (colon (flashBeep (updateDisplay s))).seconds = s.seconds ∧
    (colon (flashBeep (updateDisplay s))).hundredths = s.hundredths ∧
    (colon (flashBeep (updateDisplay s))).mode = s.mode ∧
    (colon (flashBeep (updateDisplay s))).alarm_enabled = s.alarm_enabled ∧
    (colon (flashBeep (updateDisplay s))).alarm_hours = s.alarm_hours ∧
    (colon (flashBeep (updateDisplay s))).alarm_minutes = s.alarm_minutes ∧
    (colon (flashBeep (updateDisplay s))).brightstep = s.brightstep ∧
    (colon (flashBeep (updateDisplay s))).brightness = s.brightness ∧
    (colon (flashBeep (updateDisplay s))).button1_pressed = s.button1_pressed ∧
    (colon (flashBeep (updateDisplay s))).button2_pressed = s.button2_pressed := by
  have hu : ∀ t : State, (updateDisplay t).hours = t.hours ∧ (updateDisplay t).minutes = t.minutes ∧
      (updateDisplay t).seconds = t.seconds ∧ (updateDisplay t).hundredths = t.hundredths ∧
      (updateDisplay t).mode = t.mode ∧ (updateDisplay t).alarm_enabled = t.alarm_enabled ∧
      (updateDisplay t).alarm_hours = t.alarm_hours ∧
      (updateDisplay t).alarm_minutes = t.alarm_minutes ∧
      (updateDisplay t).brightstep = t.brightstep ∧ (updateDisplay t).brightness = t.brightness ∧
      (updateDisplay t).button1_pressed = t.button1_pressed ∧
      (updateDisplay t).button2_pressed = t.button2_pressed := by
    intro t
    simp only [updateDisplay]
    split_ifs <;> simp
  have hf : ∀ t : State, (flashBeep t).hours = t.hours ∧ (flashBeep t).minutes = t.minutes ∧
      (flashBeep t).seconds = t.seconds ∧ (flashBeep t).hundredths = t.hundredths ∧
      (flashBeep t).mode = t.mode ∧ (flashBeep t).alarm_enabled = t.alarm_enabled ∧
      (flashBeep t).alarm_hours = t.alarm_hours ∧
      (flashBeep t).alarm_minutes = t.alarm_minutes ∧
      (flashBeep t).brightstep = t.brightstep ∧ (flashBeep t).brightness = t.brightness ∧
      (flashBeep t).button1_pressed = t.button1_pressed ∧
      (flashBeep t).button2_pressed = t.button2_pressed := by
    intro t
    simp only [flashBeep]
    split_ifs <;> simp
  have hc : ∀ t : State, (colon t).hours = t.hours ∧ (colon t).minutes = t.minutes ∧
      (colon t).seconds = t.seconds ∧ (colon t).hundredths = t.hundredths ∧
      (colon t).mode = t.mode ∧ (colon t).alarm_enabled = t.alarm_enabled ∧
      (colon t).alarm_hours = t.alarm_hours ∧
      (colon t).alarm_minutes = t.alarm_minutes ∧
      (colon t).brightstep = t.brightstep ∧ (colon t).brightness = t.brightness ∧
      (colon t).button1_pressed = t.button1_pressed ∧
      (colon t).button2_pressed = t.button2_pressed := by
    intro t
    simp only [colon]
    split_ifs <;> simp
  obtain ⟨c1, c2, c3, c4, c5, c6, c7, c8, c9, c10, c11, c12⟩ := hc (flashBeep (updateDisplay s))
  obtain ⟨f1, f2, f3, f4, f5, f6, f7, f8, f9, f10, f11, f12⟩ := hf (updateDisplay s)
  obtain ⟨u1, u2, u3, u4, u5, u6, u7, u8, u9, u10, u11, u12⟩ := hu s
  refine ⟨?_, ?_, ?_, ?_, ?_, ?_, ?_, ?_, ?_, ?_, ?_, ?_⟩
  · rw [c1, f1, u1]
  · rw [c2, f2, u2]
  · rw [c3, f3, u3]
  · rw [c4, f4, u4]
  · rw [c5, f5, u5]
  · rw [c6, f6, u6]
  · rw [c7, f7, u7]
  · rw [c8, f8, u8]
  · rw [c9, f9, u9]
  · rw [c10, f10, u10]
  · rw [c11, f11, u11]
  · rw [c12, f12, u12]

/-! ## Cycles without button events -/

theorem processEvents_zero (s : State) : processEvents 0 s = s := by
  simp only [processEvents, if_true]

theorem generateEvents_fields (up1 up2 : Bool) (s : State) :
    SameLogic (generateEvents up1 up2 s).2 s ∧
      (generateEvents up1 up2 s).2.brightstep = s.brightstep ∧
      (generateEvents up1 up2 s).2.brightness = s.brightness := by
  simp [generateEvents, SameLogic]

theorem sameLogic_refl (a : State) : SameLogic a a := by
  simp [SameLogic]

theorem sameLogic_trans (a b c : State) (h1 : SameLogic a b) (h2 : SameLogic b c) :
    SameLogic a c := by
  simp only [SameLogic] at *
  omega

theorem timekeeping_sameLogic (a b : State) (h : SameLogic a b) :
    SameLogic (timekeeping a) (timekeeping b) := by
  obtain ⟨h1, h2, h3, h4, h5, h6, h7, h8⟩ := h
  simp only [timekeeping, SameLogic, h1, h2, h3, h4, h5, h6, h7, h8]
  split_ifs <;> simp_all

theorem loopBody_sameLogic (up1 up2 : Bool) (s : State) :
    SameLogic (loopBody up1 up2 s)
      (processEvents (cycleEvent up1 up2 s) (generateEvents up1 up2 (timekeeping s)).2) := by
  obtain ⟨d1, d2, d3, d4, d5, d6, d7, d8, -, -, -, -⟩ := display_blocks_fields
    (processEvents (cycleEvent up1 up2 s) (generateEvents up1 up2 (timekeeping s)).2)
  exact ⟨d1, d2, d3, d4, d5, d6, d7, d8⟩

theorem loopBody_quiet (up1 up2 : Bool) (s : State) (h : cycleEvent up1 up2 s = 0) :
    SameLogic (loopBody up1 up2 s) (timekeeping s) := by
  have h1 := loopBody_sameLogic up1 up2 s
  rw [h, processEvents_zero] at h1
  exact sameLogic_trans _ _ _ h1 (generateEvents_fields up1 up2 (timekeeping s)).1

theorem runLoop_quiet (ins : List (Bool × Bool)) (s t : State) (hst : SameLogic s t)
    (h : Quiet ins s) : SameLogic (runLoop ins s) (Nat.iterate timekeeping ins.length t) := by
  induction ins generalizing s t with
  | nil => simpa [runLoop] using hst
  | cons p ps ih =>
    obtain ⟨h1, h2⟩ := h
    simp only [runLoop, List.length_cons, Function.iterate_succ_apply]
    apply ih _ _ _ h2
    exact sameLogic_trans _ _ _ (loopBody_quiet p.1 p.2 s h1) (timekeeping_sameLogic s t hst)

theorem processEvents_cases (P : State → Prop) (event : Nat) (s : State) (h0 : P s)
    (h1 : P (caseTime event s)) (h2 : P (caseTimeSetHours event s))
    (h3 : P (caseTimeSetTens event s)) (h4 : P (caseTimeSetMinutes event s))
    (h5 : P (caseSeconds event s)) (h6 : P (caseSecondsSet event s))
    (h7 : P (caseAlarmSet event s)) (h8 : P (caseAlarmSetHours event s))
    (h9 : P (caseAlarmSetTens event s)) (h10 : P (caseAlarmSetMinutes event s))
    (h11 : P (caseBrightnessSet event s)) (h12 : P (caseAlarmBeep event s)) :
    P (processEvents event s) := by
  unfold processEvents
  by_cases e0 : event = 0
  · rw [if_pos e0]; exact h0
  rw [if_neg e0]
  by_cases m1 : s.mode = M_TIME
  · rw [if_pos m1]; exact h1
  rw [if_neg m1]
  by_cases m2 : s.mode = M_TIME_SET_HOURS
  · rw [if_pos m2]; exact h2
  rw [if_neg m2]
  by_cases m3 : s.mode = M_TIME_SET_TENS
  · rw [if_pos m3]; exact h3
  rw [if_neg m3]
  by_cases m4 : s.mode = M_TIME_SET_MINUTES
  · rw [if_pos m4]; exact h4
  rw [if_neg m4]
  by_cases m5 : s.mode = M_SECONDS
  · rw [if_pos m5]; exact h5
  rw [if_neg m5]
  by_cases m6 : s.mode = M_SECONDS_SET
  · rw [if_pos m6]; exact h6
  rw [if_neg m6]
  by_cases m7 : s.mode = M_ALARM_SET
  · rw [if_pos m7]; exact h7
  rw [if_neg m7]
  by_cases m8 : s.mode = M_ALARM_SET_HOURS
  · rw [if_pos m8]; exact h8
  rw [if_neg m8]
  by_cases m9 : s.mode = M_ALARM_SET_TENS
  · rw [if_pos m9]; exact h9
  rw [if_neg m9]
  by_cases m10 : s.mode = M_ALARM_SET_MINUTES
  · rw [if_pos m10]; exact h10
  rw [if_neg m10]
  by_cases m11 : s.mode = M_BRIGHTNESS_SET
  · rw [if_pos m11]; exact h11
  rw [if_neg m11]
  by_cases m12 : s.mode = M_ALARM_BEEP
  · rw [if_pos m12]; exact h12
  rw [if_neg m12]
  exact h0

theorem processEvents_counters (event : Nat) (s : State) :
    (processEvents event s).button1_pressed = s.button1_pressed ∧
      (processEvents event s).button2_pressed = s.button2_pressed := by
  refine processEvents_cases
    (fun t => t.button1_pressed = s.button1_pressed ∧ t.button2_pressed = s.button2_pressed)
    event s ?_ ?_ ?_ ?_ ?_ ?_ ?_ ?_ ?_ ?_ ?_ ?_ ?_
  all_goals
    simp only [caseTime, caseTimeSetHours, caseTimeSetTens, caseTimeSetMinutes, caseSeconds,
      caseSecondsSet, caseAlarmSet, caseAlarmSetHours, caseAlarmSetTens, caseAlarmSetMinutes,
      caseBrightnessSet, caseAlarmBeep]
    (try split_ifs) <;> simp

/-! ## Byte arithmetic of the digit-group adjustments -/

theorem hourStep_eq : ∀ h, h < 24 →
    (if (h + 1) % 256 = 24 then 0 else (h + 1) % 256) = (h + 1) % 24 := by
  decide

theorem tensStep_eq : ∀ m, m < 60 →
    (if (m + 10) % 256 > 59 then ((m + 10) % 256 + 256 - 60) % 256 else (m + 10) % 256) =
      (m + 10) % 60 := by
  decide

theorem onesStep_eq : ∀ m, m < 60 →
    (if (m + 1) % 256 % 10 = 0 then ((m + 1) % 256 + 256 - 10) % 256 else (m + 1) % 256) =
      10 * (m / 10) + (m + 1) % 10 := by
  decide

theorem processEvents_range (event : Nat) (s : State) (h : InRange s) :
    InRange (processEvents event s) := by
  simp only [InRange, TimeInRange, AlarmInRange] at h
  obtain ⟨⟨a1, a2, a3, a4⟩, a5, a6⟩ := h
  refine processEvents_cases InRange event s ?_ ?_ ?_ ?_ ?_ ?_ ?_ ?_ ?_ ?_ ?_ ?_ ?_
  all_goals
    simp only [caseTime, caseTimeSetHours, caseTimeSetTens, caseTimeSetMinutes, caseSeconds,
      caseSecondsSet, caseAlarmSet, caseAlarmSetHours, caseAlarmSetTens, caseAlarmSetMinutes,
      caseBrightnessSet, caseAlarmBeep, InRange, TimeInRange, AlarmInRange,
      hourStep_eq _ a1, hourStep_eq _ a5, tensStep_eq _ a2, tensStep_eq _ a6,
      onesStep_eq _ a2, onesStep_eq _ a6]
    (try split_ifs) <;> (try simp_all) <;> (try omega)

theorem inRange_of_sameLogic (a b : State) (h : SameLogic a b) (hb : InRange b) : InRange a := by
  simp only [SameLogic] at h
  simp only [InRange, TimeInRange, AlarmInRange] at hb ⊢
  omega

theorem loopBody_released (s : State) (h1 : s.button1_pressed = 0) (h2 : s.button2_pressed = 0) :
    cycleEvent true true s = 0 ∧ (loopBody true true s).button1_pressed = 0 ∧
      (loopBody true true s).button2_pressed = 0 := by
  obtain ⟨-, -, -, t1, t2, -, -⟩ := timekeeping_fields s
  have he : cycleEvent true true s = 0 := by
    simp [cycleEvent, generateEvents, getButtonEvent, t1, t2, h1, h2]
  refine ⟨he, ?_⟩
  obtain ⟨-, -, -, -, -, -, -, -, -, -, d1, d2⟩ := display_blocks_fields
    (processEvents (cycleEvent true true s) (generateEvents true true (timekeeping s)).2)
  have e1 : (loopBody true true s).button1_pressed = _ := d1
  have e2 : (loopBody true true s).button2_pressed = _ := d2
  rw [e1, e2, he, processEvents_zero]
  simp [generateEvents, getButtonEvent]

theorem quiet_released (n : Nat) (s : State) (h1 : s.button1_pressed = 0)
    (h2 : s.button2_pressed = 0) : Quiet (List.replicate n (true, true)) s := by
  induction n generalizing s with
  | zero => simp [Quiet]
  | succ k ih =>
    obtain ⟨he, c1, c2⟩ := loopBody_released s h1 h2
    simp only [List.replicate_succ, Quiet]
    exact ⟨he, ih _ c1 c2⟩

theorem quiet_take (ins : List (Bool × Bool)) (k : Nat) (s : State) (h : Quiet ins s) :
    Quiet (ins.take k) s := by
  induction ins generalizing s k with
  | nil => simpa using h
  | cons p ps ih =>
    cases k with
    | zero => simp [Quiet]
    | succ j =>
      obtain ⟨h1, h2⟩ := h
      simp only [List.take_succ_cons, Quiet]
      exact ⟨h1, ih j _ h2⟩

/-! ## C1 – C3: the carry chain -/

/-- C1: from every in-range clock time, 8,640,000 timekeeping steps return the starting
hours, minutes, seconds and hundredths; the same holds for 8,640,000 full main-loop cycles
in which no cycle produces a button event. -/
theorem C1_full_day_returns (s : State) (ins : List (Bool × Bool)) (h : TimeInRange s)
    (hlen : ins.length = 8640000) (hq : Quiet ins s) :
    ((Nat.iterate timekeeping 8640000 s).hours = s.hours ∧
      (Nat.iterate timekeeping 8640000 s).minutes = s.minutes ∧
      (Nat.iterate timekeeping 8640000 s).seconds = s.seconds ∧
      (Nat.iterate timekeeping 8640000 s).hundredths = s.hundredths) ∧
    ((runLoop ins s).hours = s.hours ∧ (runLoop ins s).minutes = s.minutes ∧
      (runLoop ins s).seconds = s.seconds ∧ (runLoop ins s).hundredths = s.hundredths) := by
  obtain ⟨hr, hm⟩ := iterate_timekeeping 8640000 s h
  have hlt := sinceMidnight_lt s h
  have heq : sinceMidnight (Nat.iterate timekeeping 8640000 s) = sinceMidnight s := by
    rw [hm]; omega
  have hi := sinceMidnight_inj _ _ hr h heq
  refine ⟨hi, ?_⟩
  have hrun := runLoop_quiet ins s s (sameLogic_refl s) hq
  rw [hlen] at hrun
  obtain ⟨r1, r2, r3, r4, -⟩ := hrun
  obtain ⟨i1, i2, i3, i4⟩ := hi
  exact ⟨r1.trans i1, r2.trans i2, r3.trans i3, r4.trans i4⟩

theorem C1_full_day_returns_witness :
    TimeInRange powerOn ∧ (List.replicate 8640000 (true, true)).length = 8640000 ∧
    Quiet (List.replicate 8640000 (true, true)) powerOn ∧
    ((Nat.iterate timekeeping 8640000 powerOn).hours = powerOn.hours ∧
      (Nat.iterate timekeeping 8640000 powerOn).minutes = powerOn.minutes ∧
      (Nat.iterate timekeeping 8640000 powerOn).seconds = powerOn.seconds ∧
      (Nat.iterate timekeeping 8640000 powerOn).hundredths = powerOn.hundredths) ∧
    ((runLoop (List.replicate 8640000 (true, true)) powerOn).hours = powerOn.hours ∧
      (runLoop (List.replicate 8640000 (true, true)) powerOn).minutes = powerOn.minutes ∧
      (runLoop (List.replicate 8640000 (true, true)) powerOn).seconds = powerOn.seconds ∧
      (runLoop (List.replicate 8640000 (true, true)) powerOn).hundredths =
        powerOn.hundredths) :=
  ⟨by decide, List.length_replicate _ _, quiet_released _ _ rfl rfl,
    C1_full_day_returns powerOn (List.replicate 8640000 (true, true)) (by decide)
      (List.length_replicate _ _) (quiet_released _ _ rfl rfl)⟩

/-- C2: the range invariant.  If the clock and alarm fields are in range before a main-loop
cycle they are in range after it, for every mode, every pair of button levels and every value
of the button counters; the same holds after timekeeping followed by event processing with an
arbitrary event byte. -/
theorem C2_range_invariant (s : State) (up1 up2 : Bool) (event : Nat) (h : InRange s) :
    InRange (loopBody up1 up2 s) ∧ InRange (processEvents event (timekeeping s)) := by
  have ht : InRange (timekeeping s) := by
    obtain ⟨a1, a2, a3, -⟩ := timekeeping_fields s
    have := timekeeping_range s h.1
    obtain ⟨b1, b2⟩ := h.2
    exact ⟨this, by simp only [AlarmInRange, a2, a3]; exact ⟨b1, b2⟩⟩
  refine ⟨?_, processEvents_range event _ ht⟩
  apply inRange_of_sameLogic _ _ (loopBody_sameLogic up1 up2 s)
  apply processEvents_range
  exact inRange_of_sameLogic _ _ (generateEvents_fields up1 up2 (timekeeping s)).1 ht

theorem C2_range_invariant_witness :
    InRange { powerOn with hours := 23, minutes := 59, seconds := 59, hundredths := 99,
                           mode := M_TIME_SET_MINUTES, button2_pressed := 94 } ∧
    InRange (loopBody true false
      { powerOn with hours := 23, minutes := 59, seconds := 59, hundredths := 99,
                     mode := M_TIME_SET_MINUTES, button2_pressed := 94 }) ∧
    InRange (processEvents E_BUTTON2_REPEAT (timekeeping
      { powerOn with hours := 23, minutes := 59, seconds := 59, hundredths := 99,
                     mode := M_TIME_SET_MINUTES, button2_pressed := 94 })) :=
  ⟨by decide, C2_range_invariant _ true false E_BUTTON2_REPEAT (by decide)⟩

/-- C3: for every in-range clock time one timekeeping tick yields an in-range time whose
number of hundredths since midnight is the old number plus one modulo 8,640,000; 23:59:59.99
becomes 00:00:00.00; and from mode Clock with the alarm disabled the mode is still Clock after
the tick, and after the whole cycle when the cycle produces no button event. -/
theorem C3_tick_successor (s : State) (up1 up2 : Bool) (h : TimeInRange s) :
    TimeInRange (timekeeping s) ∧
    sinceMidnight (timekeeping s) = (sinceMidnight s + 1) % 8640000 ∧
    ((timekeeping { s with hours := 23, minutes := 59, seconds := 59, hundredths := 99 }).hours = 0 ∧
      (timekeeping { s with hours := 23, minutes := 59, seconds := 59, hundredths := 99 }).minutes = 0 ∧
      (timekeeping { s with hours := 23, minutes := 59, seconds := 59, hundredths := 99 }).seconds = 0 ∧
      (timekeeping { s with hours := 23, minutes := 59, seconds := 59, hundredths := 99 }).hundredths
        = 0) ∧
    (timekeeping { s with mode := M_TIME, alarm_enabled := 0 }).mode = M_TIME ∧
    (cycleEvent up1 up2 { s with mode := M_TIME, alarm_enabled := 0 } = 0 →
      (loopBody up1 up2 { s with mode := M_TIME, alarm_enabled := 0 }).mode = M_TIME) := by
  have hm : (timekeeping { s with mode := M_TIME, alarm_enabled := 0 }).mode = M_TIME := by
    simp only [timekeeping]
    split_ifs <;> simp_all
  refine ⟨timekeeping_range s h, timekeeping_sinceMidnight s h, ?_, hm, ?_⟩
  · simp only [timekeeping]
    split_ifs <;> simp_all
  · intro he
    have := (loopBody_quiet up1 up2 _ he).2.2.2.2.1
    rw [this, hm]

theorem C3_tick_successor_witness :
    TimeInRange lastTick ∧ sinceMidnight (timekeeping lastTick) = 0 ∧
      (loopBody true true lastTick).mode = M_TIME :=
  ⟨by decide, (C3_tick_successor lastTick true true (by decide)).2.1.trans (by decide),
    (C3_tick_successor lastTick true true (by decide)).2.2.2.2 (by decide)⟩

/-! ## C4 – C5: the gesture detector -/

theorem getButtonEvent_down : ∀ c, c < 95 →
    getButtonEvent c false =
      if c + 1 = 70 then (E_BUTTON1_LONG, 70)
      else if c + 1 = 95 then (E_BUTTON1_REPEAT, 70) else (0, c + 1) := by
  decide

theorem getButtonEvent_up (c : Nat) :
    getButtonEvent c true = (if 5 ≤ c ∧ c < 70 then E_BUTTON1_SHORT else 0, 0) := by
  simp [getButtonEvent]

theorem held_closed_form (n : Nat) :
    held n 0 = if n < 95 then n else 70 + (n - 70) % 25 := by
  induction n with
  | zero => simp [held]
  | succ k ih =>
    have hlt : held k 0 < 95 := by
      rw [ih]; split_ifs <;> omega
    simp only [held, getButtonEvent_down _ hlt]
    rw [ih]
    split_ifs <;> simp only [] <;> omega

theorem held_lt (n : Nat) : held n 0 < 95 := by
  rw [held_closed_form]; split_ifs <;> omega

/-- C4: with the counter starting at 0, after `n` consecutive samples that read "pressed", a
sample that reads "released" returns the short-press event exactly when `5 ≤ n < 70` and no
event otherwise, and leaves the counter at 0; a hold of 4 cycles gives nothing, a hold of 5
gives short-press. -/
theorem C4_short_press_window (n : Nat) :
    ((getButtonEvent (held n 0) true).1 = E_BUTTON1_SHORT ↔ 5 ≤ n ∧ n < 70) ∧
    ((getButtonEvent (held n 0) true).1 = 0 ↔ ¬ (5 ≤ n ∧ n < 70)) ∧
    (getButtonEvent (held n 0) true).2 = 0 ∧
    (getButtonEvent (held 4 0) true).1 = 0 ∧
    (getButtonEvent (held 5 0) true).1 = E_BUTTON1_SHORT := by
  refine ⟨?_, ?_, ?_, by decide, by decide⟩
  · simp only [getButtonEvent_up, held_closed_form, E_BUTTON1_SHORT]
    split_ifs <;> simp_all
    all_goals omega
  · simp only [getButtonEvent_up, held_closed_form, E_BUTTON1_SHORT]
    split_ifs <;> simp_all
    all_goals omega
  · simp only [getButtonEvent_up]

/-- C5: with the counter starting at 0 and the button held, the `k`-th consecutive "pressed"
sample (`k ≥ 1`) returns long-press exactly when `k = 70`, auto-repeat exactly when
`k = 70 + 25 * j` for some `j ≥ 1`, and no event for every other `k`. -/
theorem C5_long_press_and_repeat (k : Nat) (hk : 1 ≤ k) :
    ((getButtonEvent (held (k - 1) 0) false).1 = E_BUTTON1_LONG ↔ k = 70) ∧
    ((getButtonEvent (held (k - 1) 0) false).1 = E_BUTTON1_REPEAT ↔
      ∃ j, 1 ≤ j ∧ k = 70 + 25 * j) ∧
    ((getButtonEvent (held (k - 1) 0) false).1 = 0 ↔
      k ≠ 70 ∧ ¬ ∃ j, 1 ≤ j ∧ k = 70 + 25 * j) := by
  have hex : (∃ j, 1 ≤ j ∧ k = 70 + 25 * j) ↔ (95 ≤ k ∧ (k - 70) % 25 = 0) := by
    constructor
    · rintro ⟨j, h1, h2⟩
      omega
    · rintro ⟨h1, h2⟩
      exact ⟨(k - 70) / 25, by omega, by omega⟩
  rw [hex]
  simp only [getButtonEvent_down _ (held_lt (k - 1)), E_BUTTON1_LONG, E_BUTTON1_REPEAT]
  simp only [held_closed_form]
  split_ifs <;> simp_all
  all_goals omega

theorem C5_long_press_and_repeat_witness :
    (1 ≤ 120) ∧ (getButtonEvent (held (120 - 1) 0) false).1 = E_BUTTON1_REPEAT :=
  ⟨by decide, (C5_long_press_and_repeat 120 (by decide)).2.1.mpr ⟨2, by decide, by decide⟩⟩

/-! ## C6 – C7: the alarm check -/

theorem timekeeping_mode (s : State) (h : InRange s) :
    (timekeeping s).mode = M_ALARM_BEEP ↔
      ((s.hundredths = 99 ∧ s.seconds = 59) ∧ s.alarm_enabled ≠ 0 ∧
        (timekeeping s).hours = s.alarm_hours ∧ (timekeeping s).minutes = s.alarm_minutes) ∨
      (s.mode = M_ALARM_BEEP ∧ ¬ (s.hundredths = 99 ∧ s.seconds = 59)) := by
  simp only [InRange, TimeInRange, AlarmInRange] at h
  simp only [timekeeping]
  split_ifs <;> simp_all <;> omega

/-- C6: for every in-range state, whatever the mode, after a main-loop cycle that produces no
button event the mode is Alarm-Ringing exactly when either the tick crosses a minute boundary
(hundredths 99 and seconds 59), the alarm is enabled and the hours and minutes after the tick
equal the alarm hours and minutes, or the mode was already Alarm-Ringing and the tick does not
cross a minute boundary. -/
theorem C6_alarm_start (s : State) (up1 up2 : Bool) (h : InRange s)
    (hq : cycleEvent up1 up2 s = 0) :
    (loopBody up1 up2 s).mode = M_ALARM_BEEP ↔
      ((s.hundredths = 99 ∧ s.seconds = 59) ∧ s.alarm_enabled ≠ 0 ∧
        (loopBody up1 up2 s).hours = s.alarm_hours ∧
        (loopBody up1 up2 s).minutes = s.alarm_minutes) ∨
      (s.mode = M_ALARM_BEEP ∧ ¬ (s.hundredths = 99 ∧ s.seconds = 59)) := by
  obtain ⟨e1, e2, -, -, e5, -⟩ := loopBody_quiet up1 up2 s hq
  rw [e1, e2, e5]
  exact timekeeping_mode s h

theorem C6_alarm_start_witness :
    InRange beforeAlarm ∧ cycleEvent true true beforeAlarm = 0 ∧
      beforeAlarm.mode = M_TIME ∧ (loopBody true true beforeAlarm).mode = M_ALARM_BEEP :=
  ⟨by decide, by decide, by decide,
    (C6_alarm_start beforeAlarm true true (by decide) (by decide)).mpr
      (Or.inl (by decide))⟩

theorem timekeeping_same_minute (s : State) (h : TimeInRange s)
    (hk : s.seconds * 100 + s.hundredths < 5999) :
    SameLogic (timekeeping s)
      { s with seconds := (timekeeping s).seconds, hundredths := (timekeeping s).hundredths } ∧
    (timekeeping s).seconds * 100 + (timekeeping s).hundredths =
      s.seconds * 100 + s.hundredths + 1 := by
  simp only [TimeInRange] at h
  simp only [timekeeping, SameLogic]
  split_ifs <;> simp_all <;> omega

theorem iterate_same_minute (k : Nat) (s : State) (h : TimeInRange s)
    (hk : s.seconds * 100 + s.hundredths + k < 6000) :
    TimeInRange (Nat.iterate timekeeping k s) ∧
    SameLogic (Nat.iterate timekeeping k s)
      { s with seconds := (Nat.iterate timekeeping k s).seconds,
               hundredths := (Nat.iterate timekeeping k s).hundredths } ∧
    (Nat.iterate timekeeping k s).seconds * 100 + (Nat.iterate timekeeping k s).hundredths =
      s.seconds * 100 + s.hundredths + k := by
  induction k generalizing s with
  | zero => exact ⟨h, by simp [SameLogic], by simp⟩
  | succ j ih =>
    obtain ⟨t1, t2⟩ := timekeeping_same_minute s h (by omega)
    obtain ⟨r1, r2, r3⟩ := ih (timekeeping s) (timekeeping_range s h) (by omega)
    rw [Function.iterate_succ_apply]
    refine ⟨r1, ?_, by omega⟩
    simp only [SameLogic] at t1 r2 ⊢
    simp_all

theorem timekeeping_ring_ends (s : State) (h : TimeInRange s) (hm : s.mode = M_ALARM_BEEP)
    (hs : s.seconds = 59) (hh : s.hundredths = 99) (hah : s.alarm_hours = s.hours)
    (ham : s.alarm_minutes = s.minutes) : (timekeeping s).mode = M_TIME := by
  simp only [TimeInRange] at h
  simp only [timekeeping]
  split_ifs <;> simp_all <;> omega

theorem runLoop_ring_ends (n : Nat) (s : State) (ins : List (Bool × Bool)) (h : InRange s)
    (hm : s.mode = M_ALARM_BEEP) (hs : s.seconds = 0) (hh : s.hundredths = 0)
    (hah : s.alarm_hours = s.hours) (ham : s.alarm_minutes = s.minutes) (hn : n = 5999)
    (hlen : ins.length = n + 1) (hq : Quiet ins s) : (runLoop ins s).mode = M_TIME := by
  have hrun := runLoop_quiet ins s s (sameLogic_refl s) hq
  rw [hlen, Function.iterate_succ_apply'] at hrun
  rw [hrun.2.2.2.2.1]
  obtain ⟨i1, i2, i3⟩ := iterate_same_minute n s h.1 (by omega)
  generalize Nat.iterate timekeeping n s = t at i1 i2 i3 ⊢
  simp only [SameLogic] at i2
  simp only [TimeInRange] at i1
  apply timekeeping_ring_ends _ i1
  · rw [i2.2.2.2.2.1]; exact hm
  · omega
  · omega
  · rw [i2.2.2.2.2.2.2.1, i2.1]; exact hah
  · rw [i2.2.2.2.2.2.2.2, i2.2.1]; exact ham

/-- C7: the fixed one-minute ring.  From every in-range state in which the alarm has just
started (mode Alarm-Ringing, seconds 0, hundredths 0, alarm enabled and equal to the current
hours and minutes), over 6000 main-loop cycles none of which produces a button event, the mode
is Alarm-Ringing after each of the first 5999 cycles and Clock after the 6000th. -/
theorem C7_one_minute_ring (s : State) (ins : List (Bool × Bool)) (h : InRange s)
    (hm : s.mode = M_ALARM_BEEP) (hs : s.seconds = 0) (hh : s.hundredths = 0)
    (_he : s.alarm_enabled ≠ 0) (hah : s.alarm_hours = s.hours)
    (ham : s.alarm_minutes = s.minutes) (hlen : ins.length = 6000) (hq : Quiet ins s) :
    (∀ k, 1 ≤ k → k ≤ 5999 → (runLoop (ins.take k) s).mode = M_ALARM_BEEP) ∧
      (runLoop ins s).mode = M_TIME := by
  constructor
  · intro k _ hk
    have hrun := runLoop_quiet (ins.take k) s s (sameLogic_refl s) (quiet_take ins k s hq)
    have hl : (ins.take k).length = k := by rw [List.length_take, hlen]; omega
    rw [hl] at hrun
    obtain ⟨-, i2, -⟩ := iterate_same_minute k s h.1 (by omega)
    rw [hrun.2.2.2.2.1, i2.2.2.2.2.1]
    exact hm
  · exact runLoop_ring_ends 5999 s ins h hm hs hh hah ham rfl hlen hq

theorem C7_one_minute_ring_witness :
    InRange alarmStarted ∧ (List.replicate 6000 (true, true)).length = 6000 ∧
    Quiet (List.replicate 6000 (true, true)) alarmStarted ∧
    (∀ k, 1 ≤ k → k ≤ 5999 →
      (runLoop ((List.replicate 6000 (true, true)).take k) alarmStarted).mode = M_ALARM_BEEP) ∧
    (runLoop (List.replicate 6000 (true, true)) alarmStarted).mode = M_TIME :=
  ⟨by decide, List.length_replicate _ _, quiet_released _ _ rfl rfl,
    C7_one_minute_ring alarmStarted (List.replicate 6000 (true, true)) (by decide) rfl rfl rfl
      (by decide) rfl rfl (List.length_replicate _ _) (quiet_released _ _ rfl rfl)⟩

/-! ## C8 – C10: the transition table -/

theorem event_bits :
    ((1 : Nat) &&& 1 = 1) ∧ ((1 : Nat) &&& 2 = 0) ∧ ((1 : Nat) &&& 16 = 0) ∧
    ((1 : Nat) &&& 80 = 0) ∧ ((1 : Nat) &&& 17 = 1) ∧ ((2 : Nat) &&& 1 = 0) ∧
    ((2 : Nat) &&& 2 = 2) ∧ ((2 : Nat) &&& 16 = 0) ∧ ((2 : Nat) &&& 80 = 0) ∧
    ((2 : Nat) &&& 17 = 0) ∧ ((16 : Nat) &&& 1 = 0) ∧ ((16 : Nat) &&& 2 = 0) ∧
    ((16 : Nat) &&& 16 = 16) ∧ ((16 : Nat) &&& 80 = 16) ∧ ((16 : Nat) &&& 17 = 16) ∧
    ((64 : Nat) &&& 1 = 0) ∧ ((64 : Nat) &&& 2 = 0) ∧ ((64 : Nat) &&& 16 = 0) ∧
    ((64 : Nat) &&& 80 = 64) ∧ ((64 : Nat) &&& 17 = 0) ∧ ((16 : Nat) ||| 64 = 80) ∧
    ((1 : Nat) ||| 16 = 17) := by
  decide

/-- C8: the button-1 columns of the transition table.  For each of the 12 modes, event
processing with only a button-1 short press yields the state with the short(B1) mode of the
table and nothing else changed, and with only a button-1 long press the state with the long(B1)
mode and nothing else changed (so clock time, alarm setting and brightness are untouched). -/
theorem C8_button1_columns (s : State) :
    processEvents E_BUTTON1_SHORT { s with mode := M_TIME } =
      { s with mode := M_ALARM_SET } ∧
    processEvents E_BUTTON1_SHORT { s with mode := M_TIME_SET_HOURS } =
      { s with mode := M_TIME_SET_TENS } ∧
    processEvents E_BUTTON1_SHORT { s with mode := M_TIME_SET_TENS } =
      { s with mode := M_TIME_SET_MINUTES } ∧
    processEvents E_BUTTON1_SHORT { s with mode := M_TIME_SET_MINUTES } =
      { s with mode := M_TIME } ∧
    processEvents E_BUTTON1_SHORT { s with mode := M_SECONDS } =
      { s with mode := M_BRIGHTNESS_SET } ∧
    processEvents E_BUTTON1_SHORT { s with mode := M_SECONDS_SET } =
      { s with mode := M_TIME } ∧
    processEvents E_BUTTON1_SHORT { s with mode := M_ALARM_SET } =
      { s with mode := if s.alarm_enabled ≠ 0 then M_ALARM_SET_HOURS else M_TIME } ∧
    processEvents E_BUTTON1_SHORT { s with mode := M_ALARM_SET_HOURS } =
      { s with mode := M_ALARM_SET_TENS } ∧
    processEvents E_BUTTON1_SHORT { s with mode := M_ALARM_SET_TENS } =
      { s with mode := M_ALARM_SET_MINUTES } ∧
    processEvents E_BUTTON1_SHORT { s with mode := M_ALARM_SET_MINUTES } =
      { s with mode := M_TIME } ∧
    processEvents E_BUTTON1_SHORT { s with mode := M_BRIGHTNESS_SET } =
      { s with mode := M_TIME } ∧
    processEvents E_BUTTON1_SHORT { s with mode := M_ALARM_BEEP } =
      { s with mode := M_TIME } ∧
    processEvents E_BUTTON1_LONG { s with mode := M_TIME } =
      { s with mode := M_TIME_SET_HOURS } ∧
    processEvents E_BUTTON1_LONG { s with mode := M_TIME_SET_HOURS } =
      { s with mode := M_TIME } ∧
    processEvents E_BUTTON1_LONG { s with mode := M_TIME_SET_TENS } =
      { s with mode := M_TIME } ∧
    processEvents E_BUTTON1_LONG { s with mode := M_ALARM_SET_HOURS } =
      { s with mode := M_TIME } ∧
    processEvents E_BUTTON1_LONG { s with mode := M_ALARM_SET_TENS } =
      { s with mode := M_TIME } ∧
    processEvents E_BUTTON1_LONG { s with mode := M_SECONDS } =
      { s with mode := M_SECONDS_SET } ∧
    processEvents E_BUTTON1_LONG { s with mode := M_ALARM_SET } =
      { s with mode := M_ALARM_SET_HOURS } ∧
    processEvents E_BUTTON1_LONG { s with mode := M_TIME_SET_MINUTES } =
      { s with mode := M_TIME_SET_MINUTES } ∧
    processEvents E_BUTTON1_LONG { s with mode := M_SECONDS_SET } =
      { s with mode := M_SECONDS_SET } ∧
    processEvents E_BUTTON1_LONG { s with mode := M_ALARM_SET_MINUTES } =
      { s with mode := M_ALARM_SET_MINUTES } ∧
    processEvents E_BUTTON1_LONG { s with mode := M_BRIGHTNESS_SET } =
      { s with mode := M_BRIGHTNESS_SET } ∧
    processEvents E_BUTTON1_LONG { s with mode := M_ALARM_BEEP } =
      { s with mode := M_ALARM_BEEP } := by
  refine ⟨?_, ?_, ?_, ?_, ?_, ?_, ?_, ?_, ?_, ?_, ?_, ?_, ?_, ?_, ?_, ?_, ?_, ?_, ?_, ?_, ?_, ?_,
    ?_, ?_⟩ <;>
  simp [processEvents, caseTime, caseTimeSetHours, caseTimeSetTens, caseTimeSetMinutes,
    caseSeconds, caseSecondsSet, caseAlarmSet, caseAlarmSetHours, caseAlarmSetTens,
    caseAlarmSetMinutes, caseBrightnessSet, caseAlarmBeep, E_BUTTON1_SHORT, E_BUTTON1_LONG,
    E_BUTTON2_SHORT, E_BUTTON2_REPEAT, event_bits]

/-- C9, as stated, fails: in mode Clock a cycle whose only event is a button-2 auto-repeat
(button 2 held, counter reaching 95) leaves the mode Clock instead of taking it to Seconds. -/
theorem C9_repeat_counterexample :
    holdingButton2.mode = M_TIME ∧ cycleEvent true false holdingButton2 = E_BUTTON2_REPEAT ∧
    (processEvents E_BUTTON2_REPEAT holdingButton2).mode = M_TIME ∧
    (loopBody true false holdingButton2).mode = M_TIME ∧
    ¬ ((processEvents E_BUTTON2_REPEAT holdingButton2).mode = M_SECONDS) := by
  decide

/-- C9, amended: a cycle whose only event is a button-2 short press takes Clock to Seconds,
Seconds to Clock, Seconds-Set to Clock and Alarm-Ringing to Clock; a cycle whose only event is
a button-2 auto-repeat leaves the state, and so the mode, unchanged in these four modes. -/
theorem C9_button2_mode_changes (s : State) :
    processEvents E_BUTTON2_SHORT { s with mode := M_TIME } = { s with mode := M_SECONDS } ∧
    processEvents E_BUTTON2_SHORT { s with mode := M_SECONDS } = { s with mode := M_TIME } ∧
    (processEvents E_BUTTON2_SHORT { s with mode := M_SECONDS_SET }).mode = M_TIME ∧
    processEvents E_BUTTON2_SHORT { s with mode := M_ALARM_BEEP } = { s with mode := M_TIME } ∧
    processEvents E_BUTTON2_REPEAT { s with mode := M_TIME } = { s with mode := M_TIME } ∧
    processEvents E_BUTTON2_REPEAT { s with mode := M_SECONDS } = { s with mode := M_SECONDS } ∧
    processEvents E_BUTTON2_REPEAT { s with mode := M_SECONDS_SET } =
      { s with mode := M_SECONDS_SET } ∧
    processEvents E_BUTTON2_REPEAT { s with mode := M_ALARM_BEEP } =
      { s with mode := M_ALARM_BEEP } := by
  refine ⟨?_, ?_, ?_, ?_, ?_, ?_, ?_, ?_⟩ <;>
  simp [processEvents, caseTime, caseSeconds, caseSecondsSet, caseAlarmBeep, E_BUTTON1_SHORT,
    E_BUTTON1_LONG, E_BUTTON2_SHORT, E_BUTTON2_REPEAT, event_bits]

/-- C10: in a field-editing mode a button-2 short press or auto-repeat changes only the edited
digit group, with wrap-around, for every in-range value: hours (resp. alarm hours) become
`(h + 1) % 24`; in the tens modes minutes become `(m + 10) % 60`, ones digit unchanged; in the
ones modes minutes become `10 * (m / 10) + (m + 1) % 10`, tens digit unchanged.  The mode and
every other field are unchanged. -/
theorem C10_digit_group_adjust (s : State) (e : Nat) (h : InRange s)
    (he : e = E_BUTTON2_SHORT ∨ e = E_BUTTON2_REPEAT) :
    processEvents e { s with mode := M_TIME_SET_HOURS } =
      { s with mode := M_TIME_SET_HOURS, hours := (s.hours + 1) % 24 } ∧
    processEvents e { s with mode := M_ALARM_SET_HOURS } =
      { s with mode := M_ALARM_SET_HOURS, alarm_hours := (s.alarm_hours + 1) % 24 } ∧
    processEvents e { s with mode := M_TIME_SET_TENS } =
      { s with mode := M_TIME_SET_TENS, minutes := (s.minutes + 10) % 60 } ∧
    processEvents e { s with mode := M_ALARM_SET_TENS } =
      { s with mode := M_ALARM_SET_TENS, alarm_minutes := (s.alarm_minutes + 10) % 60 } ∧
    processEvents e { s with mode := M_TIME_SET_MINUTES } =
      { s with mode := M_TIME_SET_MINUTES,
               minutes := 10 * (s.minutes / 10) + (s.minutes + 1) % 10 } ∧
    processEvents e { s with mode := M_ALARM_SET_MINUTES } =
      { s with mode := M_ALARM_SET_MINUTES,
               alarm_minutes := 10 * (s.alarm_minutes / 10) + (s.alarm_minutes + 1) % 10 } ∧
    ((s.minutes + 10) % 60) % 10 = s.minutes % 10 ∧
    (10 * (s.minutes / 10) + (s.minutes + 1) % 10) / 10 = s.minutes / 10 := by
  obtain ⟨⟨a1, a2, -, -⟩, a5, a6⟩ := h
  have b1 := hourStep_eq _ a1
  have b2 := hourStep_eq _ a5
  have b3 := tensStep_eq _ a2
  have b4 := tensStep_eq _ a6
  have b5 := onesStep_eq _ a2
  have b6 := onesStep_eq _ a6
  rcases he with rfl | rfl <;>
  refine ⟨?_, ?_, ?_, ?_, ?_, ?_, by omega, by omega⟩ <;>
  simp only [processEvents, caseTimeSetHours, caseTimeSetTens, caseTimeSetMinutes,
    caseAlarmSetHours, caseAlarmSetTens, caseAlarmSetMinutes, E_BUTTON1_SHORT, E_BUTTON1_LONG,
    E_BUTTON2_SHORT, E_BUTTON2_REPEAT, event_bits, b1, b2, b3, b4, b5, b6] <;>
  simp

theorem C10_digit_group_adjust_witness :
    InRange editSample ∧ (E_BUTTON2_REPEAT = E_BUTTON2_SHORT ∨ E_BUTTON2_REPEAT = E_BUTTON2_REPEAT) ∧
    (processEvents E_BUTTON2_REPEAT { editSample with mode := M_TIME_SET_MINUTES }).minutes = 30 ∧
    (processEvents E_BUTTON2_REPEAT { editSample with mode := M_TIME_SET_HOURS }).hours = 0 ∧
    (processEvents E_BUTTON2_REPEAT { editSample with mode := M_ALARM_SET_TENS }).alarm_minutes
      = 9 := by
  have h := C10_digit_group_adjust editSample E_BUTTON2_REPEAT (by decide) (Or.inr rfl)
  exact ⟨by decide, Or.inr rfl, (congrArg State.minutes h.2.2.2.2.1).trans (by decide),
    (congrArg State.hours h.1).trans (by decide),
    (congrArg State.alarm_minutes h.2.2.2.1).trans (by decide)⟩

/-! ## C11: brightness stepping -/

theorem brightStep_eq : ∀ b, b < 9 →
    (if (b + 1) % 256 ≥ BRIGHTSTEP_COUNT then 0 else (b + 1) % 256) = (b + 1) % 9 := by
  decide

theorem processEvents_brightnessOk (event : Nat) (s : State) (h : BrightnessOk s) :
    BrightnessOk (processEvents event s) := by
  obtain ⟨h1, h2⟩ := h
  have hb := brightStep_eq _ h1
  refine processEvents_cases BrightnessOk event s ⟨h1, h2⟩ ?_ ?_ ?_ ?_ ?_ ?_ ?_ ?_ ?_ ?_ ?_ ?_
  all_goals
    simp only [caseTime, caseTimeSetHours, caseTimeSetTens, caseTimeSetMinutes, caseSeconds,
      caseSecondsSet, caseAlarmSet, caseAlarmSetHours, caseAlarmSetTens, caseAlarmSetMinutes,
      caseBrightnessSet, caseAlarmBeep, BrightnessOk, hb]
    (try split_ifs) <;> (try simp_all) <;> (try simp only [BRIGHTSTEP_COUNT]) <;> (try omega)

theorem loopBody_brightnessOk (up1 up2 : Bool) (s : State) (h : BrightnessOk s) :
    BrightnessOk (loopBody up1 up2 s) := by
  obtain ⟨-, -, -, -, -, t6, t7⟩ := timekeeping_fields s
  obtain ⟨-, g2, g3⟩ := generateEvents_fields up1 up2 (timekeeping s)
  have h1 : BrightnessOk (generateEvents up1 up2 (timekeeping s)).2 := by
    simp only [BrightnessOk] at h ⊢
    rw [g2, g3, t6, t7]; exact h
  have h2 := processEvents_brightnessOk (cycleEvent up1 up2 s) _ h1
  obtain ⟨-, -, -, -, -, -, -, -, d9, d10, -, -⟩ := display_blocks_fields
    (processEvents (cycleEvent up1 up2 s) (generateEvents up1 up2 (timekeeping s)).2)
  have e9 : (loopBody up1 up2 s).brightstep = _ := d9
  have e10 : (loopBody up1 up2 s).brightness = _ := d10
  simp only [BrightnessOk] at h2 ⊢
  rw [e9, e10]; exact h2

theorem runLoop_brightnessOk (ins : List (Bool × Bool)) (s : State) (h : BrightnessOk s) :
    BrightnessOk (runLoop ins s) := by
  induction ins generalizing s with
  | nil => exact h
  | cons p ps ih => exact ih _ (loopBody_brightnessOk p.1 p.2 s h)

/-- C11: in Brightness-Set a button-2 short press or auto-repeat sets the step index to
`(step + 1) % 9` and the brightness to the table entry of the new index, changing nothing else;
from power-on (index 6, brightness 19) successive adjustments give brightness
31, 50, 1, 2, 3, 5, 7, 12, 19 and the ninth returns to index 6; and after any run of the main
loop from power-on the brightness is the table entry of the current step index. -/
theorem C11_brightness_steps (s : State) (e : Nat) (ins : List (Bool × Bool))
    (hs : s.brightstep < 9) (he : e = E_BUTTON2_SHORT ∨ e = E_BUTTON2_REPEAT) :
    processEvents e { s with mode := M_BRIGHTNESS_SET } =
      { s with mode := M_BRIGHTNESS_SET, brightstep := (s.brightstep + 1) % 9,
               brightness := brightstepsAt ((s.brightstep + 1) % 9) } ∧
    (List.range 9).map (fun n =>
      (Nat.iterate (processEvents e) (n + 1) brightnessEdit).brightness) =
        [31, 50, 1, 2, 3, 5, 7, 12, 19] ∧
    (Nat.iterate (processEvents e) 9 brightnessEdit).brightstep = 6 ∧
    (runLoop ins powerOn).brightstep < 9 ∧
    (runLoop ins powerOn).brightness = brightstepsAt (runLoop ins powerOn).brightstep := by
  have hb := brightStep_eq _ hs
  have hr := runLoop_brightnessOk ins powerOn (by decide)
  refine ⟨?_, ?_, ?_, hr.1, hr.2⟩
  · rcases he with rfl | rfl <;>
    simp only [processEvents, caseBrightnessSet, E_BUTTON1_SHORT, E_BUTTON2_SHORT,
      E_BUTTON2_REPEAT, event_bits, hb] <;>
    simp
  · rcases he with rfl | rfl <;> decide
  · rcases he with rfl | rfl <;> decide

theorem C11_brightness_steps_witness :
    powerOn.brightstep < 9 ∧ (E_BUTTON2_SHORT = E_BUTTON2_SHORT ∨ E_BUTTON2_SHORT = E_BUTTON2_REPEAT) ∧
    (processEvents E_BUTTON2_SHORT { powerOn with mode := M_BRIGHTNESS_SET }).brightness = 31 ∧
    (runLoop [(true, false), (true, true)] powerOn).brightness =
      brightstepsAt (runLoop [(true, false), (true, true)] powerOn).brightstep :=
  ⟨by decide, Or.inl rfl,
    (congrArg State.brightness
      (C11_brightness_steps powerOn E_BUTTON2_SHORT [] (by decide) (Or.inl rfl)).1).trans
      (by decide),
    (C11_brightness_steps powerOn E_BUTTON2_SHORT [(true, false), (true, true)] (by decide)
      (Or.inl rfl)).2.2.2.2⟩

/-! ## C12: seconds rounding -/

theorem shortB2_secondsSet (g : State) (hm : g.mode = M_SECONDS_SET) (h1 : g.minutes < 60)
    (h2 : g.hours < 24) :
    (processEvents E_BUTTON2_SHORT g).mode = M_TIME ∧
    (processEvents E_BUTTON2_SHORT g).seconds = 0 ∧
    (processEvents E_BUTTON2_SHORT g).hundredths = 25 ∧
    (processEvents E_BUTTON2_SHORT g).minutes =
      (if g.seconds > 30 then (g.minutes + 1) % 60 else g.minutes) ∧
    (processEvents E_BUTTON2_SHORT g).hours =
      (if g.seconds > 30 ∧ g.minutes = 59 then (g.hours + 1) % 24 else g.hours) := by
  have e : processEvents E_BUTTON2_SHORT g = caseSecondsSet E_BUTTON2_SHORT g := by
    simp [processEvents, hm, E_BUTTON2_SHORT]
  rw [e]
  simp only [caseSecondsSet, E_BUTTON1_SHORT, E_BUTTON2_SHORT, event_bits]
  split_ifs <;> simp_all <;> omega

theorem shortB2_alarmBeep (g : State) (hm : g.mode = M_ALARM_BEEP) :
    processEvents E_BUTTON2_SHORT g = { g with mode := M_TIME } := by
  simp [processEvents, caseAlarmBeep, hm, E_BUTTON1_SHORT, E_BUTTON2_SHORT, event_bits]

theorem timekeeping_secondsSet (s : State) (h : InRange s) (hm : s.mode = M_SECONDS_SET)
    (hs : s.seconds > 30) :
    (AlarmStarts s → (timekeeping s).mode = M_ALARM_BEEP ∧ (timekeeping s).hundredths = 0) ∧
    (¬ AlarmStarts s → (timekeeping s).mode = M_SECONDS_SET) ∧
    ((s.hundredths = 99 ∧ s.seconds = 59) → (timekeeping s).seconds = 0 ∧
      (timekeeping s).minutes = (s.minutes + 1) % 60 ∧
      (timekeeping s).hours = (if s.minutes = 59 then (s.hours + 1) % 24 else s.hours)) ∧
    (¬ (s.hundredths = 99 ∧ s.seconds = 59) → (timekeeping s).seconds > 30 ∧
      (timekeeping s).minutes = s.minutes ∧ (timekeeping s).hours = s.hours) := by
  simp only [InRange, TimeInRange, AlarmInRange] at h
  simp only [AlarmStarts, timekeeping]
  split_ifs <;> simp_all <;> omega

/-- C12, as stated, fails: from 07:29:59.99 in mode Seconds-Set with the alarm enabled at 07:30,
a cycle in which button 2 yields a short press ends with hundredths 0, not 25 (the tick starts
the alarm and the press dismisses it). -/
theorem C12_alarm_counterexample :
    InRange secondsSetAtAlarm ∧ secondsSetAtAlarm.mode = M_SECONDS_SET ∧
    secondsSetAtAlarm.seconds > 30 ∧ cycleEvent true true secondsSetAtAlarm = E_BUTTON2_SHORT ∧
    (loopBody true true secondsSetAtAlarm).hundredths = 0 ∧
    ¬ ((loopBody true true secondsSetAtAlarm).hundredths = 25) := by
  decide

/-- C12, amended: for every in-range state with mode Seconds-Set and seconds > 30, after one
main-loop cycle whose event is a button-2 short press alone, minutes is the old value plus one
(59 wraps to 0 and hours then advance by one modulo 24), seconds is 0 and the mode is Clock;
hundredths is 25, except when the tick of the cycle crosses the minute boundary onto the
enabled alarm time, in which case hundredths is 0. -/
theorem C12_seconds_round_up (s : State) (up1 up2 : Bool) (h : InRange s)
    (hm : s.mode = M_SECONDS_SET) (hs : s.seconds > 30)
    (he : cycleEvent up1 up2 s = E_BUTTON2_SHORT) :
    (loopBody up1 up2 s).minutes = (s.minutes + 1) % 60 ∧
    (loopBody up1 up2 s).hours = (if s.minutes = 59 then (s.hours + 1) % 24 else s.hours) ∧
    (loopBody up1 up2 s).seconds = 0 ∧
    (loopBody up1 up2 s).hundredths = (if AlarmStarts s then 0 else 25) ∧
    (loopBody up1 up2 s).mode = M_TIME := by
  have hl := loopBody_sameLogic up1 up2 s
  rw [he] at hl
  obtain ⟨g1, g2, g3, g4, g5, -⟩ := (generateEvents_fields up1 up2 (timekeeping s)).1
  obtain ⟨k1, k2, k3, k4⟩ := timekeeping_secondsSet s h hm hs
  obtain ⟨r1, r2, -, -⟩ := timekeeping_range s h.1
  generalize (generateEvents up1 up2 (timekeeping s)).2 = g at hl g1 g2 g3 g4 g5
  obtain ⟨l1, l2, l3, l4, l5, -⟩ := hl
  rw [l1, l2, l3, l4, l5]
  by_cases ha : AlarmStarts s
  · obtain ⟨m1, m2⟩ := k1 ha
    obtain ⟨c1, c2, c3⟩ := k3 ⟨ha.1, ha.2.1⟩
    rw [shortB2_alarmBeep g (g5.trans m1), if_pos ha]
    simp only []
    rw [g1, g2, g3, g4]
    exact ⟨c2, c3, c1, m2, trivial⟩
  · obtain ⟨q1, q2, q3, q4, q5⟩ := shortB2_secondsSet g (g5.trans (k2 ha)) (g2 ▸ r2) (g1 ▸ r1)
    rw [q1, q2, q3, q4, q5, if_neg ha, g1, g2, g3]
    refine ⟨?_, ?_, rfl, rfl, rfl⟩
    · by_cases hc : s.hundredths = 99 ∧ s.seconds = 59
      · obtain ⟨c1, c2, c3⟩ := k3 hc
        rw [c1, c2]; simp
      · obtain ⟨c1, c2, c3⟩ := k4 hc
        rw [if_pos c1, c2]
    · by_cases hc : s.hundredths = 99 ∧ s.seconds = 59
      · obtain ⟨c1, c2, c3⟩ := k3 hc
        rw [c1, c3]; simp
      · obtain ⟨c1, c2, c3⟩ := k4 hc
        rw [c2, c3]
        simp only [c1, true_and]

theorem C12_seconds_round_up_witness :
    InRange secondsSetSample ∧ secondsSetSample.mode = M_SECONDS_SET ∧
    secondsSetSample.seconds > 30 ∧ cycleEvent true true secondsSetSample = E_BUTTON2_SHORT ∧
    (loopBody true true secondsSetSample).minutes = 0 ∧
    (loopBody true true secondsSetSample).hours = 0 ∧
    (loopBody true true secondsSetSample).hundredths = 25 ∧
    (loopBody true true secondsSetSample).mode = M_TIME := by
  have h := C12_seconds_round_up secondsSetSample true true (by decide) (by decide) (by decide)
    (by decide)
  exact ⟨by decide, by decide, by decide, by decide, h.1.trans (by decide),
    h.2.1.trans (by decide), h.2.2.2.1.trans (by decide), h.2.2.2.2⟩

/-! ## C13: rendering -/

theorem updateDisplay_hhmm (hours : Nat) :
    (if hours / 10 ≠ 0 then decodeAt (hours / 10) else BLANK) =
      (if hours < 10 then BLANK else decodeAt (hours / 10)) := by
  split_ifs <;> first | rfl | omega

theorem leading_digit_aux : ∀ h, h < 24 →
    ((if h < 10 then BLANK else decodeAt (h / 10)) = BLANK ↔ h < 10) ∧
      (if h < 10 then BLANK else decodeAt (h / 10)) ≠ decodeAt 0 := by
  decide

theorem leading_digit (h : Nat) (hh : h < 24) (m : Nat) :
    ((showHHMM h m).head? = some BLANK ↔ h < 10) ∧ (showHHMM h m).head? ≠ some (decodeAt 0) := by
  obtain ⟨a, b⟩ := leading_digit_aux h hh
  simp only [showHHMM, List.head?_cons, Option.some.injEq, ne_eq]
  exact ⟨a, b⟩

/-- C13: rendering per facet, before the blink overlay and the colon bit.  The clock facet and
Alarm-Ringing show HH:MM of the clock with the leading digit blanked when hours < 10; the
seconds facet shows blank, blank, SS; the alarm-enable facet shows `ALon` when the alarm is
enabled and `AL--` when disabled; the alarm-time facet shows HH:MM of the alarm with the same
blanking; the brightness facet shows blank, blank, `b` and the glyph of the step digit
(`brightstep + 1`).  Slot 0 of a shown time is blank exactly when its hours are below 10 and is
never the glyph of zero. -/
theorem C13_rendering (s : State) (h : InRange s) :
    ((s.mode &&& 0xF0 = M_TIME ∨ s.mode = M_ALARM_BEEP) →
      rendered (updateDisplay s) = showHHMM s.hours s.minutes) ∧
    (s.mode &&& 0xF0 = M_SECONDS →
      rendered (updateDisplay s) =
        [BLANK, BLANK, decodeAt (s.seconds / 10), decodeAt (s.seconds % 10)]) ∧
    (s.mode &&& 0xF0 = M_ALARM →
      rendered (updateDisplay s) =
        (if s.alarm_enabled ≠ 0 then [GLYPH_A, GLYPH_L, GLYPH_o, GLYPH_n]
         else [GLYPH_A, GLYPH_L, GLYPH_DASH, GLYPH_DASH])) ∧
    (s.mode &&& 0xF0 = M_ALARM_TIME →
      rendered (updateDisplay s) = showHHMM s.alarm_hours s.alarm_minutes) ∧
    (s.mode &&& 0xF0 = M_BRIGHTNESS →
      rendered (updateDisplay s) = [BLANK, BLANK, GLYPH_b, decodeAt (s.brightstep + 1)]) ∧
    (((showHHMM s.hours s.minutes).head? = some BLANK ↔ s.hours < 10) ∧
      (showHHMM s.hours s.minutes).head? ≠ some (decodeAt 0)) ∧
    (((showHHMM s.alarm_hours s.alarm_minutes).head? = some BLANK ↔ s.alarm_hours < 10) ∧
      (showHHMM s.alarm_hours s.alarm_minutes).head? ≠ some (decodeAt 0)) := by
  have hb : (M_ALARM_BEEP &&& 0xF0 : Nat) = M_ALARM_BEEP := by decide
  refine ⟨?_, ?_, ?_, ?_, ?_, leading_digit _ h.1.1 _, leading_digit _ h.2.1 _⟩
  · intro hf
    have hf2 : s.mode &&& 0xF0 = M_ALARM_BEEP ∨ s.mode &&& 0xF0 = M_TIME := by
      rcases hf with hf | hf
      · exact Or.inr hf
      · exact Or.inl (by rw [hf]; exact hb)
    simp only [updateDisplay, if_pos hf2, rendered, showHHMM, updateDisplay_hhmm]
  · intro hf
    simp [updateDisplay, hf, rendered]
  · intro hf
    simp only [updateDisplay, hf, rendered, M_ALARM, M_ALARM_BEEP, M_TIME, M_SECONDS]
    split_ifs <;> simp_all
  · intro hf
    simp only [updateDisplay, hf, rendered, showHHMM, updateDisplay_hhmm, M_ALARM, M_ALARM_BEEP,
      M_TIME, M_SECONDS, M_ALARM_TIME]
    simp
  · intro hf
    simp [updateDisplay, hf, rendered]

theorem C13_rendering_witness :
    InRange renderSample ∧
    rendered (updateDisplay { renderSample with mode := M_TIME_SET_HOURS }) =
      [BLANK, decodeAt 9, decodeAt 0, decodeAt 5] ∧
    rendered (updateDisplay { renderSample with mode := M_ALARM_BEEP }) =
      [BLANK, decodeAt 9, decodeAt 0, decodeAt 5] ∧
    rendered (updateDisplay { renderSample with mode := M_SECONDS_SET }) =
      [BLANK, BLANK, decodeAt 3, decodeAt 7] ∧
    rendered (updateDisplay { renderSample with mode := M_ALARM_SET }) =
      [GLYPH_A, GLYPH_L, GLYPH_DASH, GLYPH_DASH] ∧
    rendered (updateDisplay { renderSample with mode := M_ALARM_SET_TENS }) =
      [decodeAt 2, decodeAt 1, decodeAt 4, decodeAt 0] ∧
    rendered (updateDisplay { renderSample with mode := M_BRIGHTNESS_SET }) =
      [BLANK, BLANK, GLYPH_b, decodeAt 7] :=
  ⟨by decide,
    ((C13_rendering { renderSample with mode := M_TIME_SET_HOURS } (by decide)).1
      (Or.inl (by decide))).trans (by decide),
    ((C13_rendering { renderSample with mode := M_ALARM_BEEP } (by decide)).1
      (Or.inr rfl)).trans (by decide),
    ((C13_rendering { renderSample with mode := M_SECONDS_SET } (by decide)).2.1
      (by decide)).trans (by decide),
    ((C13_rendering { renderSample with mode := M_ALARM_SET } (by decide)).2.2.1
      (by decide)).trans (by decide),
    ((C13_rendering { renderSample with mode := M_ALARM_SET_TENS } (by decide)).2.2.2.1
      (by decide)).trans (by decide),
    ((C13_rendering { renderSample with mode := M_BRIGHTNESS_SET } (by decide)).2.2.2.2.1
      (by decide)).trans (by decide)⟩

/-! ## C14 – C16: blink overlay, colon and buzzer -/

theorem loopBody_eq (up1 up2 : Bool) (s : State) :
    loopBody up1 up2 s = colon (flashBeep (updateDisplay (preDisplay up1 up2 s))) := rfl

theorem timekeeping_outputs (s : State) :
    (timekeeping s).display_1 = s.display_1 ∧ (timekeeping s).buzzer = s.buzzer := by
  simp only [timekeeping]
  split_ifs <;> simp

theorem processEvents_outputs (event : Nat) (s : State) :
    (processEvents event s).display_1 = s.display_1 ∧
      (processEvents event s).buzzer = s.buzzer := by
  refine processEvents_cases (fun t => t.display_1 = s.display_1 ∧ t.buzzer = s.buzzer)
    event s ?_ ?_ ?_ ?_ ?_ ?_ ?_ ?_ ?_ ?_ ?_ ?_ ?_
  all_goals
    simp only [caseTime, caseTimeSetHours, caseTimeSetTens, caseTimeSetMinutes, caseSeconds,
      caseSecondsSet, caseAlarmSet, caseAlarmSetHours, caseAlarmSetTens, caseAlarmSetMinutes,
      caseBrightnessSet, caseAlarmBeep]
    (try split_ifs) <;> simp

theorem preDisplay_outputs (up1 up2 : Bool) (s : State) :
    (preDisplay up1 up2 s).display_1 = s.display_1 ∧
      (preDisplay up1 up2 s).buzzer = s.buzzer := by
  obtain ⟨p1, p2⟩ := processEvents_outputs (cycleEvent up1 up2 s)
    (generateEvents up1 up2 (timekeeping s)).2
  obtain ⟨t1, t2⟩ := timekeeping_outputs s
  simp only [preDisplay, p1, p2]
  simp only [generateEvents, t1, t2, and_self]

theorem decodeAt_lt (i : Nat) : decodeAt i < 256 := by
  by_cases h : i < 10
  · revert i; decide
  · have : decode.length ≤ i := by simp only [decode, List.length]; omega
    simp only [decodeAt]
    rw [List.getD_eq_default _ _ this]
    decide

theorem updateDisplay_fields (s : State) :
    (updateDisplay s).hundredths = s.hundredths ∧ (updateDisplay s).mode = s.mode ∧
    (updateDisplay s).button2_pressed = s.button2_pressed ∧
    (updateDisplay s).buzzer = s.buzzer ∧
    (s.display_1 < 256 → (updateDisplay s).display_1 < 256) := by
  have d := decodeAt_lt
  simp only [updateDisplay]
  split_ifs <;> simp [d]

set_option maxRecDepth 4000 in
theorem byte_colon : ∀ x, x < 256 →
    (x &&& 254) ||| 1 = x ||| 1 ∧ (x ||| 1) ||| 1 = x ||| 1 := by
  decide

theorem colon_lit (x : Nat) : (x &&& 254) &&& 1 = 0 := by
  rw [Nat.and_assoc, show (254 &&& 1 : Nat) = 0 from by decide, Nat.and_zero]

theorem colon_dark (x : Nat) : (x ||| 1) &&& 1 = 1 := by
  apply Nat.eq_of_testBit_eq
  intro i
  simp only [Nat.testBit_and, Nat.testBit_or]
  cases h : Nat.testBit 1 i <;> simp

theorem inFlashWindow_iff (n : Nat) (h : n < 100) :
    ((n ≥ 17 ∧ n < 34) ∨ (n ≥ 50 ∧ n < 67) ∨ n ≥ 83) ↔ InFlashWindow n := by
  simp only [InFlashWindow]; omega

theorem flashBeep_slots (r : State) (hh : r.hundredths < 100) :
    (flashBeep r).display0 =
      (if InFlashWindow r.hundredths ∧ r.button2_pressed < 70 ∧ r.mode &&& 0x08 ≠ 0
        then BLANK else r.display0) ∧
    (flashBeep r).display_1 =
      (if InFlashWindow r.hundredths ∧ r.button2_pressed < 70 ∧ r.mode &&& 0x04 ≠ 0
        then BLANK else r.display_1) ∧
    (flashBeep r).display2 =
      (if InFlashWindow r.hundredths ∧ r.button2_pressed < 70 ∧ r.mode &&& 0x02 ≠ 0
        then BLANK else r.display2) ∧
    (flashBeep r).display3 =
      (if InFlashWindow r.hundredths ∧ r.button2_pressed < 70 ∧ r.mode &&& 0x01 ≠ 0
        then BLANK else r.display3) ∧
    (flashBeep r).buzzer =
      (if InFlashWindow r.hundredths then (if r.mode = M_ALARM_BEEP then true else r.buzzer)
        else false) ∧
    (flashBeep r).hundredths = r.hundredths ∧ (flashBeep r).mode = r.mode := by
  have hw := inFlashWindow_iff r.hundredths hh
  by_cases hc : (r.hundredths ≥ 17 ∧ r.hundredths < 34) ∨
      (r.hundredths ≥ 50 ∧ r.hundredths < 67) ∨ r.hundredths ≥ 83
  · have hi := hw.mp hc
    simp only [flashBeep, if_pos hc, if_pos hi, hi, true_and, LONG_PRESS_TIME, decide_eq_true_eq,
      and_self, if_true]
  · have hi : ¬ InFlashWindow r.hundredths := fun h => hc (hw.mpr h)
    simp only [flashBeep, if_neg hc, if_neg hi, hi, false_and, if_false, and_self]

theorem colon_fields (r : State) :
    (colon r).display0 = r.display0 ∧ (colon r).display2 = r.display2 ∧
    (colon r).display3 = r.display3 ∧ (colon r).buzzer = r.buzzer ∧
    (colon r).display1 =
      (if r.hundredths < 50 ∨ r.mode &&& M_ALARM ≠ 0 then r.display_1 &&& 254
        else r.display_1 ||| 1) := by
  simp only [colon, SEGMENT_DP]
  split_ifs <;> simp

theorem overlay_slots (r : State) (hh : r.hundredths < 100) (hd : r.display_1 < 256) :
    (colon (flashBeep r)).display0 =
      (if InFlashWindow r.hundredths ∧ r.button2_pressed < 70 ∧ r.mode &&& 0x08 ≠ 0
        then BLANK else r.display0) ∧
    (colon (flashBeep r)).display1 ||| 1 =
      (if InFlashWindow r.hundredths ∧ r.button2_pressed < 70 ∧ r.mode &&& 0x04 ≠ 0
        then BLANK else r.display_1 ||| 1) ∧
    (colon (flashBeep r)).display2 =
      (if InFlashWindow r.hundredths ∧ r.button2_pressed < 70 ∧ r.mode &&& 0x02 ≠ 0
        then BLANK else r.display2) ∧
    (colon (flashBeep r)).display3 =
      (if InFlashWindow r.hundredths ∧ r.button2_pressed < 70 ∧ r.mode &&& 0x01 ≠ 0
        then BLANK else r.display3) := by
  obtain ⟨f0, f1, f2, f3, -, -, -⟩ := flashBeep_slots r hh
  obtain ⟨c0, c2, c3, -, c1⟩ := colon_fields (flashBeep r)
  refine ⟨by rw [c0, f0], ?_, by rw [c2, f2], by rw [c3, f3]⟩
  have hb : (flashBeep r).display_1 < 256 := by
    rw [f1]; split_ifs
    · decide
    · exact hd
  obtain ⟨b1, b2⟩ := byte_colon _ hb
  have b3 : (BLANK ||| 1 : Nat) = BLANK := by decide
  have e : (colon (flashBeep r)).display1 ||| 1 = (flashBeep r).display_1 ||| 1 := by
    rw [c1]; split_ifs
    · exact b1
    · exact b2
  rw [e, f1]
  split_ifs
  · exact b3
  · rfl

theorem preDisplay_range (up1 up2 : Bool) (s : State) (h : InRange s) :
    InRange (preDisplay up1 up2 s) := by
  have ht : InRange (timekeeping s) := by
    obtain ⟨-, a2, a3, -⟩ := timekeeping_fields s
    obtain ⟨b1, b2⟩ := h.2
    exact ⟨timekeeping_range s h.1, by simp only [AlarmInRange, a2, a3]; exact ⟨b1, b2⟩⟩
  apply processEvents_range
  exact inRange_of_sameLogic _ _ (generateEvents_fields up1 up2 (timekeeping s)).1 ht

/-- C14: the blink overlay.  After a main-loop cycle from an in-range state (with a byte in
`display_1`): if hundredths is in [17,34), [50,67) or [83,100) and the counter of button 2 is
below 70, every slot whose bit is set in the low nibble of the mode (0x08, 0x04, 0x02, 0x01 for
slots 0..3) is blank and every other slot shows its rendered glyph; otherwise all four slots
show their rendered glyphs.  Slot 1 is compared with the colon bit set aside. -/
theorem C14_blink_overlay (s : State) (up1 up2 : Bool) (h : InRange s)
    (hd : s.display_1 < 256) :
    ((InFlashWindow (loopBody up1 up2 s).hundredths ∧
        (loopBody up1 up2 s).button2_pressed < LONG_PRESS_TIME) →
      (loopBody up1 up2 s).display0 =
        (if (loopBody up1 up2 s).mode &&& 0x08 ≠ 0 then BLANK
          else (updateDisplay (preDisplay up1 up2 s)).display0) ∧
      (loopBody up1 up2 s).display1 ||| SEGMENT_DP =
        (if (loopBody up1 up2 s).mode &&& 0x04 ≠ 0 then BLANK
          else (updateDisplay (preDisplay up1 up2 s)).display_1 ||| SEGMENT_DP) ∧
      (loopBody up1 up2 s).display2 =
        (if (loopBody up1 up2 s).mode &&& 0x02 ≠ 0 then BLANK
          else (updateDisplay (preDisplay up1 up2 s)).display2) ∧
      (loopBody up1 up2 s).display3 =
        (if (loopBody up1 up2 s).mode &&& 0x01 ≠ 0 then BLANK
          else (updateDisplay (preDisplay up1 up2 s)).display3)) ∧
    (¬ (InFlashWindow (loopBody up1 up2 s).hundredths ∧
        (loopBody up1 up2 s).button2_pressed < LONG_PRESS_TIME) →
      (loopBody up1 up2 s).display0 = (updateDisplay (preDisplay up1 up2 s)).display0 ∧
      (loopBody up1 up2 s).display1 ||| SEGMENT_DP =
        (updateDisplay (preDisplay up1 up2 s)).display_1 ||| SEGMENT_DP ∧
      (loopBody up1 up2 s).display2 = (updateDisplay (preDisplay up1 up2 s)).display2 ∧
      (loopBody up1 up2 s).display3 = (updateDisplay (preDisplay up1 up2 s)).display3) := by
  have hp := (preDisplay_range up1 up2 s h).1.2.2.2
  obtain ⟨u1, u2, u3, -, u5⟩ := updateDisplay_fields (preDisplay up1 up2 s)
  obtain ⟨-, -, -, d4, d5, -, -, -, -, -, -, d12⟩ := display_blocks_fields (preDisplay up1 up2 s)
  obtain ⟨o0, o1, o2, o3⟩ := overlay_slots (updateDisplay (preDisplay up1 up2 s))
    (by rw [u1]; exact hp) (u5 (by rw [(preDisplay_outputs up1 up2 s).1]; exact hd))
  rw [u1, u2, u3] at o0 o1 o2 o3
  simp only [loopBody_eq, d4, d5, d12, LONG_PRESS_TIME, SEGMENT_DP, o0, o1, o2, o3]
  constructor
  · rintro ⟨hw, hb⟩
    simp only [hw, hb, true_and, and_self]
  · intro hn
    have hn0 : ∀ q : Prop, ¬ (InFlashWindow (preDisplay up1 up2 s).hundredths ∧
        (preDisplay up1 up2 s).button2_pressed < 70 ∧ q) :=
      fun q hq => hn ⟨hq.1, hq.2.1⟩
    simp only [hn0, if_false, and_self]

theorem C14_blink_overlay_witness :
    InRange blinkSample ∧ blinkSample.display_1 < 256 ∧
    InFlashWindow (loopBody true true blinkSample).hundredths ∧
    (loopBody true true blinkSample).mode = M_TIME_SET_HOURS ∧
    (loopBody true true blinkSample).display0 = BLANK ∧
    (loopBody true true blinkSample).display1 ||| SEGMENT_DP = BLANK ∧
    (loopBody true true blinkSample).display2 = decodeAt 0 ∧
    (loopBody true true blinkSample).display3 = decodeAt 0 := by
  have h := (C14_blink_overlay blinkSample true true (by decide) (by decide)).1 (by decide)
  exact ⟨by decide, by decide, by decide, by decide, h.1.trans (by decide),
    h.2.1.trans (by decide), h.2.2.1.trans (by decide), h.2.2.2.trans (by decide)⟩

theorem colon_bit (q : State) :
    ((colon q).display1 &&& SEGMENT_DP = 0 ↔
      ((colon q).hundredths < 50 ∨ (colon q).mode &&& M_ALARM ≠ 0)) := by
  have e : (255 - 1 : Nat) = 254 := rfl
  simp only [colon, SEGMENT_DP, e]
  split_ifs with hc
  · simp only [colon_lit, true_iff]; exact hc
  · simp only [colon_dark, one_ne_zero, false_iff]; exact hc

/-- C15, as stated, fails: in mode Alarm-Ringing at hundredths 60 the colon bit of slot 1 is
set, so the colon is not lit. -/
theorem C15_ringing_counterexample :
    (loopBody true true ringingLate).mode = M_ALARM_BEEP ∧
    (loopBody true true ringingLate).hundredths = 60 ∧
    (loopBody true true ringingLate).display1 &&& SEGMENT_DP = 1 ∧
    ¬ ((loopBody true true ringingLate).display1 &&& SEGMENT_DP = 0) := by
  decide

/-- C15, amended: after every main-loop cycle the colon bit of slot 1 is cleared (colon lit)
exactly when hundredths < 50 or bit 0x80 of the mode is set; so in Alarm-Enable-Set,
Set-Alarm-Hours, Set-Alarm-Tens and Set-Alarm-Minutes it is lit for every value of hundredths,
and in the eight other modes of the transition table, Alarm-Ringing included, it is lit if and
only if hundredths < 50. -/
theorem C15_colon (s : State) (up1 up2 : Bool) :
    ((loopBody up1 up2 s).display1 &&& SEGMENT_DP = 0 ↔
      ((loopBody up1 up2 s).hundredths < 50 ∨ (loopBody up1 up2 s).mode &&& M_ALARM ≠ 0)) ∧
    (((loopBody up1 up2 s).mode = M_ALARM_SET ∨ (loopBody up1 up2 s).mode = M_ALARM_SET_HOURS ∨
        (loopBody up1 up2 s).mode = M_ALARM_SET_TENS ∨
        (loopBody up1 up2 s).mode = M_ALARM_SET_MINUTES) →
      (loopBody up1 up2 s).display1 &&& SEGMENT_DP = 0) ∧
    (((loopBody up1 up2 s).mode = M_TIME ∨ (loopBody up1 up2 s).mode = M_TIME_SET_HOURS ∨
        (loopBody up1 up2 s).mode = M_TIME_SET_TENS ∨
        (loopBody up1 up2 s).mode = M_TIME_SET_MINUTES ∨
        (loopBody up1 up2 s).mode = M_SECONDS ∨ (loopBody up1 up2 s).mode = M_SECONDS_SET ∨
        (loopBody up1 up2 s).mode = M_BRIGHTNESS_SET ∨
        (loopBody up1 up2 s).mode = M_ALARM_BEEP) →
      ((loopBody up1 up2 s).display1 &&& SEGMENT_DP = 0 ↔
        (loopBody up1 up2 s).hundredths < 50)) := by
  have hc : _ := colon_bit (flashBeep (updateDisplay (preDisplay up1 up2 s)))
  rw [← loopBody_eq] at hc
  refine ⟨hc, ?_, ?_⟩
  · intro hm
    rw [hc]
    right
    rcases hm with hm | hm | hm | hm <;> rw [hm] <;> decide
  · intro hm
    rw [hc]
    have h0 : (loopBody up1 up2 s).mode &&& M_ALARM = 0 := by
      rcases hm with hm | hm | hm | hm | hm | hm | hm | hm <;> rw [hm] <;> decide
    rw [h0]
    simp

/-- C16, as stated, fails: the alarm rings and the buzzer sounds at hundredths 20; a short press
of button 1 ends the ringing in the next cycle (hundredths 21, inside a window, mode Clock) and
the buzzer output is still asserted. -/
theorem C16_buzzer_counterexample :
    InRange (loopBody false true ringingPressed) ∧
    (loopBody false true ringingPressed).buzzer = true ∧
    InFlashWindow (loopBody true true (loopBody false true ringingPressed)).hundredths ∧
    (loopBody true true (loopBody false true ringingPressed)).mode = M_TIME ∧
    (loopBody true true (loopBody false true ringingPressed)).buzzer = true := by
  decide

/-- C16, amended: after every main-loop cycle from an in-range state the buzzer output is
asserted if hundredths is in [17,34), [50,67) or [83,100) and the mode is Alarm-Ringing, is
de-asserted if hundredths is outside those windows, and keeps the value it had before the cycle
if hundredths is inside a window and the mode is not Alarm-Ringing. -/
theorem C16_buzzer (s : State) (up1 up2 : Bool) (h : InRange s) :
    ((InFlashWindow (loopBody up1 up2 s).hundredths ∧
        (loopBody up1 up2 s).mode = M_ALARM_BEEP) → (loopBody up1 up2 s).buzzer = true) ∧
    (¬ InFlashWindow (loopBody up1 up2 s).hundredths → (loopBody up1 up2 s).buzzer = false) ∧
    ((InFlashWindow (loopBody up1 up2 s).hundredths ∧
        (loopBody up1 up2 s).mode ≠ M_ALARM_BEEP) →
      (loopBody up1 up2 s).buzzer = s.buzzer) := by
  have hp := (preDisplay_range up1 up2 s h).1.2.2.2
  obtain ⟨u1, u2, -, u4, -⟩ := updateDisplay_fields (preDisplay up1 up2 s)
  obtain ⟨-, -, -, d4, d5, -⟩ := display_blocks_fields (preDisplay up1 up2 s)
  obtain ⟨-, -, -, -, fb, -, -⟩ := flashBeep_slots (updateDisplay (preDisplay up1 up2 s))
    (by rw [u1]; exact hp)
  obtain ⟨-, -, -, cb, -⟩ := colon_fields (flashBeep (updateDisplay (preDisplay up1 up2 s)))
  rw [u1, u2, u4, (preDisplay_outputs up1 up2 s).2] at fb
  simp only [loopBody_eq, d4, d5, cb, fb]
  refine ⟨?_, ?_, ?_⟩
  · rintro ⟨hw, hm⟩
    simp only [hw, hm, if_true]
  · intro hw
    simp only [hw, if_false]
  · rintro ⟨hw, hm⟩
    simp only [hw, hm, if_true, if_false]

theorem C16_buzzer_witness :
    InRange ringingPressed ∧ InFlashWindow (loopBody false true ringingPressed).hundredths ∧
    (loopBody false true ringingPressed).mode = M_ALARM_BEEP ∧
    (loopBody false true ringingPressed).buzzer = true :=
  ⟨by decide, by decide, by decide,
    (C16_buzzer ringingPressed false true (by decide)).1 ⟨by decide, by decide⟩⟩

/-! ## C17 – C18: the display driver -/

theorem or_absorb (x d : Nat) : (x &&& d) ||| d = d := by
  apply Nat.eq_of_testBit_eq
  intro i
  simp only [Nat.testBit_or, Nat.testBit_and]
  cases x.testBit i <;> cases d.testBit i <;> rfl

theorem digit_masks : ∀ i, i < 4 → ∀ j, j < 4 →
    ((255 - digitsAt i) &&& digitsAt j = if i = j then 0 else digitsAt j) ∧
    (digitsAt i &&& digitsAt j = if i = j then digitsAt j else 0) ∧ digitsAt j ≠ 0 := by
  decide

theorem line_off (x i j : Nat) (hi : i < 4) (hj : j < 4) :
    (x &&& (255 - digitsAt i)) &&& digitsAt j = if i = j then 0 else x &&& digitsAt j := by
  rw [Nat.and_assoc, (digit_masks i hi j hj).1]
  split_ifs <;> simp

theorem line_on (x i j : Nat) (hi : i < 4) (hj : j < 4) :
    (x ||| digitsAt i) &&& digitsAt j = if i = j then digitsAt j else x &&& digitsAt j := by
  rw [Nat.and_distrib_right, (digit_masks i hi j hj).2.1]
  split_ifs with h
  · exact or_absorb _ _
  · simp

theorem next_digit : ∀ c, c < 4 →
    (if (c + 1) % 256 = DIGIT_COUNT then 0 else (c + 1) % 256) = (c + 1) % 4 := by
  decide

theorem isr_within (b : Nat) (display : Nat → Nat) (t : Isr) (hj : t.digit_time + 1 < 50) :
    (isr b display t).digit_time = t.digit_time + 1 ∧
    (isr b display t).current_digit = t.current_digit ∧
    (isr b display t).DDRB = t.DDRB ∧
    (isr b display t).DDRD =
      (if t.digit_time + 1 ≥ b then t.DDRD &&& (255 - digitsAt t.current_digit) else t.DDRD) := by
  have e : (t.digit_time + 1) % 256 = t.digit_time + 1 := Nat.mod_eq_of_lt (by omega)
  have n : ¬ (t.digit_time + 1 = DIGIT_DURATION) := by simp only [DIGIT_DURATION]; omega
  simp only [isr, e]
  split_ifs <;> simp_all

theorem isr_wrap (b : Nat) (display : Nat → Nat) (t : Isr) (hj : t.digit_time = 49)
    (hc : t.current_digit < 4) :
    (isr b display t).digit_time = 0 ∧
    (isr b display t).current_digit = (t.current_digit + 1) % 4 ∧
    (isr b display t).DDRB = display ((t.current_digit + 1) % 4) ∧
    (isr b display t).DDRD =
      (if 50 ≥ b then t.DDRD &&& (255 - digitsAt t.current_digit) else t.DDRD) |||
        digitsAt ((t.current_digit + 1) % 4) := by
  have n := next_digit _ hc
  have e : (t.digit_time + 1) % 256 = 50 := by rw [hj]
  simp only [isr, e, DIGIT_DURATION]
  split_ifs <;> simp_all

theorem isr_exclusive (b : Nat) (display : Nat → Nat) (t : Isr) (hb : b ≤ 50)
    (h : Exclusive t) : Exclusive (isr b display t) := by
  obtain ⟨hx, hc, hd⟩ := h
  by_cases hj : t.digit_time + 1 < 50
  · obtain ⟨e1, e2, -, e4⟩ := isr_within b display t hj
    refine ⟨?_, by rw [e2]; exact hc, by rw [e1]; exact hj⟩
    intro i hi hl
    rw [e2]
    apply hx i hi
    simp only [lineOn, e4] at hl ⊢
    split_ifs at hl
    · rw [line_off _ _ _ hc hi] at hl
      split_ifs at hl
      · exact absurd rfl hl
      · exact hl
    · exact hl
  · have h49 : t.digit_time = 49 := by omega
    obtain ⟨e1, e2, -, e4⟩ := isr_wrap b display t h49 hc
    have hn : (t.current_digit + 1) % 4 < 4 := Nat.mod_lt _ (by decide)
    refine ⟨?_, by rw [e2]; exact hn, by rw [e1]; decide⟩
    intro i hi hl
    rw [e2]
    simp only [lineOn, e4, if_pos hb] at hl
    rw [line_on _ _ _ hn hi] at hl
    split_ifs at hl with h1
    · exact h1.symm
    · rw [line_off _ _ _ hc hi] at hl
      split_ifs at hl with h2
      · exact absurd rfl hl
      · exact absurd (hx i hi hl).symm h2

theorem runIsr_exclusive (ins : List (Nat × (Nat → Nat))) (t : Isr)
    (hb : ∀ p ∈ ins, 1 ≤ p.1 ∧ p.1 ≤ 50) (h : Exclusive t) : Exclusive (runIsr ins t) := by
  induction ins generalizing t with
  | nil => exact h
  | cons p ps ih =>
    simp only [runIsr]
    apply ih
    · intro q hq
      exact hb q (List.mem_cons_of_mem _ hq)
    · exact isr_exclusive _ _ _ (hb p (List.mem_cons_self _ _)).2 h

theorem exclusive_powerOn : Exclusive isrPowerOn := by
  refine ⟨?_, by decide, by decide⟩
  intro i _ hl
  simp [lineOn, isrPowerOn] at hl

/-- C17: display multiplexing exclusivity.  From the power-on state (no digit-select line on,
`digit_time` 0, `current_digit` 0), after each tick of any sequence of timer ticks whose
brightness values stay within 1..50, at most one of the four digit-select lines is on, a line
that is on is the line of `current_digit`, `current_digit` is in 0..3 and `digit_time` in
0..49. -/
theorem C17_exclusive_lines (ins : List (Nat × (Nat → Nat))) (k : Nat)
    (hb : ∀ p ∈ ins, 1 ≤ p.1 ∧ p.1 ≤ 50) :
    (∀ i, i < 4 → ¬ lineOn isrPowerOn i) ∧
    (∀ i j, i < 4 → j < 4 → lineOn (runIsr (ins.take k) isrPowerOn) i →
      lineOn (runIsr (ins.take k) isrPowerOn) j → i = j) ∧
    (∀ i, i < 4 → lineOn (runIsr (ins.take k) isrPowerOn) i →
      i = (runIsr (ins.take k) isrPowerOn).current_digit) ∧
    (runIsr (ins.take k) isrPowerOn).current_digit < 4 ∧
    (runIsr (ins.take k) isrPowerOn).digit_time < 50 := by
  have hk : ∀ p ∈ ins.take k, 1 ≤ p.1 ∧ p.1 ≤ 50 :=
    fun p hp => hb p (List.mem_of_mem_take hp)
  obtain ⟨hx, hc, hd⟩ := runIsr_exclusive (ins.take k) isrPowerOn hk exclusive_powerOn
  refine ⟨?_, ?_, hx, hc, hd⟩
  · intro i _ hl
    simp [lineOn, isrPowerOn] at hl
  · intro i j hi hj li lj
    rw [hx i hi li, hx j hj lj]

set_option maxRecDepth 100000 in
theorem C17_exclusive_lines_witness :
    (∀ p ∈ List.replicate 200 (19, sampleDisplay), 1 ≤ p.1 ∧ p.1 ≤ 50) ∧
    lineOn (runIsr ((List.replicate 200 (19, sampleDisplay)).take 60) isrPowerOn) 1 ∧
    (runIsr ((List.replicate 200 (19, sampleDisplay)).take 60) isrPowerOn).current_digit = 1 ∧
    (runIsr ((List.replicate 200 (19, sampleDisplay)).take 60) isrPowerOn).digit_time < 50 := by
  have hb : ∀ p ∈ List.replicate 200 (19, sampleDisplay), 1 ≤ p.1 ∧ p.1 ≤ 50 := by
    intro p hp
    rw [List.eq_of_mem_replicate hp]
    decide
  have h := C17_exclusive_lines (List.replicate 200 (19, sampleDisplay)) 60 hb
  have hl : lineOn (runIsr ((List.replicate 200 (19, sampleDisplay)).take 60) isrPowerOn) 1 := by
    decide
  exact ⟨hb, hl, (h.2.2.1 1 (by decide) hl).symm, h.2.2.2.2⟩

theorem isr_inSlot (b d j : Nat) (display : Nat → Nat) (t : Isr) (hd : d < 4)
    (hj : j + 1 < 50) (h : InSlot b d j t) : InSlot b d (j + 1) (isr b display t) := by
  obtain ⟨h1, h2, h3⟩ := h
  obtain ⟨e1, e2, -, e4⟩ := isr_within b display t (by rw [h1]; exact hj)
  refine ⟨by rw [e1, h1], by rw [e2, h2], ?_⟩
  intro i hi
  have hi3 := h3 i hi
  simp only [lineOn] at hi3 ⊢
  rw [e4, h1, h2]
  split_ifs with hb
  · rw [line_off _ _ _ hd hi]
    split_ifs with hdi
    · constructor
      · intro hl; exact absurd rfl hl
      · intro hl; omega
    · rw [hi3]
      constructor
      · intro hl; exact absurd hl.1.symm hdi
      · intro hl; exact absurd hl.1.symm hdi
  · rw [hi3]
    constructor
    · intro hl; exact ⟨hl.1, by omega⟩
    · intro hl; exact ⟨hl.1, by omega⟩

theorem runIsr_inSlot (b d : Nat) (hd : d < 4) (ins : List (Nat × (Nat → Nat))) (j : Nat)
    (t : Isr) (hc : ∀ p ∈ ins, p.1 = b) (hj : j + ins.length < 50) (h : InSlot b d j t) :
    InSlot b d (j + ins.length) (runIsr ins t) := by
  induction ins generalizing t j with
  | nil => simpa [runIsr] using h
  | cons p ps ih =>
    simp only [List.length_cons] at hj
    have hp : p.1 = b := hc p (List.mem_cons_self _ _)
    have hs := isr_inSlot b d j p.2 t hd (by omega) h
    have := ih (j + 1) (isr p.1 p.2 t) (fun q hq => hc q (List.mem_cons_of_mem _ hq))
      (by omega) (by rw [hp]; exact hs)
    simp only [runIsr, List.length_cons]
    rw [show j + (ps.length + 1) = j + 1 + ps.length from by omega]
    exact this

theorem isr_slot_start (b : Nat) (display : Nat → Nat) (t : Isr) (hb1 : 1 ≤ b) (hb2 : b ≤ 50)
    (ht : t.digit_time = 49) (hx : Exclusive t) :
    InSlot b ((t.current_digit + 1) % 4) 0 (isr b display t) ∧
      (isr b display t).DDRB = display ((t.current_digit + 1) % 4) := by
  obtain ⟨hl, hc, -⟩ := hx
  obtain ⟨e1, e2, e3, e4⟩ := isr_wrap b display t ht hc
  have hn : (t.current_digit + 1) % 4 < 4 := Nat.mod_lt _ (by decide)
  refine ⟨⟨e1, e2, ?_⟩, e3⟩
  intro i hi
  simp only [lineOn, e4, if_pos hb2]
  rw [line_on _ _ _ hn hi]
  split_ifs with h1
  · constructor
    · intro _; exact ⟨h1.symm, by omega⟩
    · intro _; exact (digit_masks i hi i hi).2.2
  · rw [line_off _ _ _ hc hi]
    split_ifs with h2
    · constructor
      · intro hl0; exact absurd rfl hl0
      · intro hl0; exact absurd hl0.1.symm h1
    · constructor
      · intro hl0; exact absurd (hl i hi hl0).symm h2
      · intro hl0; exact absurd hl0.1.symm h1

theorem count_below : ∀ b, b ≤ 50 →
    ((List.range 50).filter (fun j => decide (j < b))).length = b := by
  decide

theorem count_not_below : ∀ b, b ≤ 50 →
    ((List.range 50).filter (fun j => decide (¬ j < b))).length = 50 - b := by
  decide

theorem runIsr_digit_time (ins : List (Nat × (Nat → Nat))) (t : Isr)
    (h : t.digit_time + ins.length < 50) :
    (runIsr ins t).digit_time = t.digit_time + ins.length ∧
      (runIsr ins t).current_digit = t.current_digit := by
  induction ins generalizing t with
  | nil => simp [runIsr]
  | cons p ps ih =>
    simp only [List.length_cons] at h
    obtain ⟨e1, e2, -, -⟩ := isr_within p.1 p.2 t (by omega)
    obtain ⟨r1, r2⟩ := ih (isr p.1 p.2 t) (by rw [e1]; omega)
    simp only [runIsr, List.length_cons]
    rw [r1, r2, e1, e2]
    exact ⟨by omega, rfl⟩

/-- C18: duty-cycle dimming.  With a constant brightness `b` in 1..50, take a tick that resets
`digit_time` (it starts in a state with `digit_time` 49 that satisfies the exclusivity
invariant) and the 49 ticks after it.  That tick sets `current_digit` to the next digit
cyclically, loads `DDRB` from that digit's buffer entry and switches its line on; `j` ticks
later (`j` in 0..49) the slot's line is on exactly when `j < b`, every other line is off and
`current_digit` is unchanged, so the line is on for exactly `b` of the 50 tick periods and off
for `50 - b`; after the 49 ticks `digit_time` is 49 again, so the next tick starts the slot of
the next digit.  The state 49 ticks after power-on is such a starting state, with digit 0. -/
theorem C18_duty_cycle (t : Isr) (b : Nat) (d0 : Nat → Nat) (ins : List (Nat × (Nat → Nat)))
    (hb1 : 1 ≤ b) (hb2 : b ≤ 50) (ht : t.digit_time = 49) (hx : Exclusive t)
    (hc : ∀ p ∈ ins, p.1 = b) (hl : ins.length = 49) :
    (isr b d0 t).digit_time = 0 ∧
    (isr b d0 t).current_digit = (t.current_digit + 1) % 4 ∧
    (isr b d0 t).DDRB = d0 ((t.current_digit + 1) % 4) ∧
    (∀ j, j < 50 →
      (lineOn (runIsr (ins.take j) (isr b d0 t)) ((t.current_digit + 1) % 4) ↔ j < b) ∧
      (∀ i, i < 4 → i ≠ (t.current_digit + 1) % 4 → ¬ lineOn (runIsr (ins.take j) (isr b d0 t)) i) ∧
      (runIsr (ins.take j) (isr b d0 t)).current_digit = (t.current_digit + 1) % 4 ∧
      (runIsr (ins.take j) (isr b d0 t)).digit_time = j) ∧
    ((List.range 50).filter (fun j => decide (lineOn (runIsr (ins.take j) (isr b d0 t)) ((t.current_digit + 1) % 4)))).length = b ∧
    ((List.range 50).filter (fun j => decide (¬ lineOn (runIsr (ins.take j) (isr b d0 t)) ((t.current_digit + 1) % 4)))).length = 50 - b ∧
    (Exclusive (runIsr ins (isr b d0 t)) ∧ (runIsr ins (isr b d0 t)).digit_time = 49) ∧
    (Exclusive (runIsr ins isrPowerOn) ∧ (runIsr ins isrPowerOn).digit_time = 49 ∧
      (runIsr ins isrPowerOn).current_digit = 0) := by
  obtain ⟨hs, hB⟩ := isr_slot_start b d0 t hb1 hb2 ht hx
  have hn : (t.current_digit + 1) % 4 < 4 := Nat.mod_lt _ (by decide)
  have hslot : ∀ j, j < 50 → InSlot b ((t.current_digit + 1) % 4) j (runIsr (ins.take j) (isr b d0 t)) := by
    intro j hj
    have hlen : (ins.take j).length = j := by rw [List.length_take, hl]; omega
    have := runIsr_inSlot b _ hn (ins.take j) 0 (isr b d0 t)
      (fun p hp => hc p (List.mem_of_mem_take hp)) (by rw [hlen]; omega) hs
    rw [hlen, Nat.zero_add] at this
    exact this
  have hon : ∀ j, j < 50 → (lineOn (runIsr (ins.take j) (isr b d0 t)) ((t.current_digit + 1) % 4) ↔ j < b) := by
    intro j hj
    rw [(hslot j hj).2.2 _ hn]
    exact ⟨fun h => h.2, fun h => ⟨rfl, h⟩⟩
  have hrange : ∀ p ∈ ins, 1 ≤ p.1 ∧ p.1 ≤ 50 := by
    intro p hp; rw [hc p hp]; exact ⟨hb1, hb2⟩
  have hE : Exclusive (isr b d0 t) := isr_exclusive b d0 t hb2 hx
  refine ⟨hs.1, hs.2.1, hB, ?_, ?_, ?_, ⟨runIsr_exclusive ins _ hrange hE, ?_⟩,
    ⟨runIsr_exclusive ins _ hrange exclusive_powerOn, ?_, ?_⟩⟩
  · intro j hj
    obtain ⟨s1, s2, s3⟩ := hslot j hj
    refine ⟨hon j hj, ?_, s2, s1⟩
    intro i hi hne hli
    exact hne ((s3 i hi).mp hli).1
  · refine Eq.trans (congrArg List.length (List.filter_congr ?_)) (count_below b hb2)
    intro j hj
    have := hon j (List.mem_range.mp hj)
    simp only [this]
  · refine Eq.trans (congrArg List.length (List.filter_congr ?_)) (count_not_below b hb2)
    intro j hj
    have := hon j (List.mem_range.mp hj)
    simp only [this]
  · have := (runIsr_digit_time ins (isr b d0 t) (by rw [hs.1, hl]; decide)).1
    rw [this, hs.1, hl]
  · have := (runIsr_digit_time ins isrPowerOn (by rw [hl]; decide)).1
    rw [this, hl]; rfl
  · exact (runIsr_digit_time ins isrPowerOn (by rw [hl]; decide)).2

theorem C18_duty_cycle_witness :
    (1 ≤ 19) ∧ (19 ≤ 50) ∧ slotEnd.digit_time = 49 ∧ Exclusive slotEnd ∧
    (∀ p ∈ List.replicate 49 (19, sampleDisplay), p.1 = 19) ∧
    (List.replicate 49 (19, sampleDisplay)).length = 49 ∧
    (isr 19 sampleDisplay slotEnd).current_digit = 1 ∧
    (isr 19 sampleDisplay slotEnd).DDRB = decodeAt 2 ∧
    ((List.range 50).filter (fun j => decide (lineOn
      (runIsr ((List.replicate 49 (19, sampleDisplay)).take j) (isr 19 sampleDisplay slotEnd))
      ((slotEnd.current_digit + 1) % 4)))).length = 19 := by
  have hc : ∀ p ∈ List.replicate 49 (19, sampleDisplay), p.1 = 19 := by
    intro p hp
    rw [List.eq_of_mem_replicate hp]
  have h := C18_duty_cycle slotEnd 19 sampleDisplay (List.replicate 49 (19, sampleDisplay))
    (by decide) (by decide) rfl (by decide) hc (List.length_replicate _ _)
  exact ⟨by decide, by decide, rfl, by decide, hc, List.length_replicate _ _, h.2.1,
    h.2.2.1, h.2.2.2.2.1⟩

/-! ## C19: the glyph table -/

theorem glyph_table_aux : ∀ d, d < 10 →
    (∀ m ∈ allSegments, (decodeAt d &&& m = 0 ↔ m ∈ shapeOf d)) ∧
    decodeAt d &&& SEGMENT_DP = SEGMENT_DP ∧ decodeAt d ≠ BLANK ∧
    ∀ e, e < 10 → decodeAt d = decodeAt e → d = e := by
  decide

/-- C19: under the documented active-low segment mapping, for every digit `d` in 0..9 the
byte `decode[d]` has cleared exactly the bits of the segments of the standard seven-segment
shape of `d` and has the dp/colon bit set; the ten patterns are pairwise distinct and none
equals `BLANK`. -/
theorem C19_glyph_table (d e : Nat) (hd : d < 10) (he : e < 10) :
    (∀ m ∈ allSegments, (decodeAt d &&& m = 0 ↔ m ∈ shapeOf d)) ∧
    decodeAt d &&& SEGMENT_DP = SEGMENT_DP ∧ decodeAt d ≠ BLANK ∧
    (decodeAt d = decodeAt e → d = e) := by
  obtain ⟨h1, h2, h3, h4⟩ := glyph_table_aux d hd
  exact ⟨h1, h2, h3, h4 e he⟩

theorem C19_glyph_table_witness :
    (7 < 10) ∧ (1 < 10) ∧ (decodeAt 7 &&& SEG_A = 0 ↔ SEG_A ∈ shapeOf 7) ∧
    (decodeAt 7 &&& SEG_G = 0 ↔ SEG_G ∈ shapeOf 7) ∧ decodeAt 7 ≠ BLANK :=
  ⟨by decide, by decide,
    (C19_glyph_table 7 1 (by decide) (by decide)).1 SEG_A (by decide),
    (C19_glyph_table 7 1 (by decide) (by decide)).1 SEG_G (by decide),
    (C19_glyph_table 7 1 (by decide) (by decide)).2.2.1⟩

/-! ## C20: the reachable modes -/

theorem timekeeping_tableMode (s : State) (h : s.mode ∈ tableModes) :
    (timekeeping s).mode ∈ tableModes := by
  have h1 : M_ALARM_BEEP ∈ tableModes := by decide
  have h2 : M_TIME ∈ tableModes := by decide
  simp only [timekeeping]
  split_ifs <;> first | exact h | exact h1 | exact h2

theorem processEvents_tableMode (event : Nat) (s : State) (h : s.mode ∈ tableModes) :
    (processEvents event s).mode ∈ tableModes := by
  have c : M_TIME ∈ tableModes ∧ M_TIME_SET_HOURS ∈ tableModes ∧ M_TIME_SET_TENS ∈ tableModes ∧
      M_TIME_SET_MINUTES ∈ tableModes ∧ M_SECONDS ∈ tableModes ∧ M_SECONDS_SET ∈ tableModes ∧
      M_BRIGHTNESS_SET ∈ tableModes ∧ M_ALARM_BEEP ∈ tableModes ∧ M_ALARM_SET ∈ tableModes ∧
      M_ALARM_SET_HOURS ∈ tableModes ∧ M_ALARM_SET_TENS ∈ tableModes ∧
      M_ALARM_SET_MINUTES ∈ tableModes := by decide
  obtain ⟨c1, c2, c3, c4, c5, c6, c7, c8, c9, c10, c11, c12⟩ := c
  refine processEvents_cases (fun t => t.mode ∈ tableModes) event s h
    ?_ ?_ ?_ ?_ ?_ ?_ ?_ ?_ ?_ ?_ ?_ ?_
  all_goals
    simp only [caseTime, caseTimeSetHours, caseTimeSetTens, caseTimeSetMinutes, caseSeconds,
      caseSecondsSet, caseAlarmSet, caseAlarmSetHours, caseAlarmSetTens, caseAlarmSetMinutes,
      caseBrightnessSet, caseAlarmBeep]
    (try split_ifs) <;> assumption

theorem loopBody_tableMode (up1 up2 : Bool) (s : State) (h : s.mode ∈ tableModes) :
    (loopBody up1 up2 s).mode ∈ tableModes := by
  obtain ⟨-, -, -, -, d5, -⟩ := display_blocks_fields (preDisplay up1 up2 s)
  rw [loopBody_eq, d5]
  apply processEvents_tableMode
  rw [(generateEvents_fields up1 up2 (timekeeping s)).1.2.2.2.2.1]
  exact timekeeping_tableMode s h

theorem runLoop_tableMode (ins : List (Bool × Bool)) (s : State) (h : s.mode ∈ tableModes) :
    (runLoop ins s).mode ∈ tableModes := by
  induction ins generalizing s with
  | nil => exact h
  | cons p ps ih => exact ih _ (loopBody_tableMode p.1 p.2 s h)

/-- C20: the reachable-mode invariant.  Starting in the power-on mode Clock, with arbitrary
values of every other variable, after each cycle of any run of the main loop with arbitrary
button levels the mode is one of the 12 modes of the transition table, so it is never
`M_BRIGHTNESS` (0x20), `M_ALARM` (0x80) or `M_ALARM_TIME` (0x90); for these three values the
event switch has no case, so event processing leaves the state unchanged for every event. -/
theorem C20_reachable_modes (s : State) (ins : List (Bool × Bool)) (k : Nat) (e : Nat)
    (hm : s.mode = M_TIME) :
    (runLoop (ins.take k) s).mode ∈ tableModes ∧
    (runLoop (ins.take k) s).mode ≠ M_BRIGHTNESS ∧
    (runLoop (ins.take k) s).mode ≠ M_ALARM ∧
    (runLoop (ins.take k) s).mode ≠ M_ALARM_TIME ∧
    processEvents e { s with mode := M_BRIGHTNESS } = { s with mode := M_BRIGHTNESS } ∧
    processEvents e { s with mode := M_ALARM } = { s with mode := M_ALARM } ∧
    processEvents e { s with mode := M_ALARM_TIME } = { s with mode := M_ALARM_TIME } := by
  have h0 : s.mode ∈ tableModes := by rw [hm]; decide
  have h := runLoop_tableMode (ins.take k) s h0
  have n1 : M_BRIGHTNESS ∉ tableModes := by decide
  have n2 : M_ALARM ∉ tableModes := by decide
  have n3 : M_ALARM_TIME ∉ tableModes := by decide
  refine ⟨h, fun q => n1 (q ▸ h), fun q => n2 (q ▸ h), fun q => n3 (q ▸ h), ?_, ?_, ?_⟩ <;>
  simp [processEvents]

set_option maxRecDepth 100000 in
theorem C20_reachable_modes_witness :
    powerOn.mode = M_TIME ∧ (runLoop (pressButton2.take 7) powerOn).mode = M_SECONDS ∧
    (runLoop (pressButton2.take 7) powerOn).mode ∈ tableModes :=
  ⟨rfl, by decide, (C20_reachable_modes powerOn pressButton2 7 0 rfl).1⟩

end AvrClock
